import Mathlib

/-!
Verification development for the moss 2D sprite-rendering engine.

The definitions below are a shallow embedding of the engine's C sources:

* `src/sprite_batch.c`  — the sprite batch (GeometryStreamer): create /
  clear / begin / add / end / draw,
* `src/engine/swapchain.c` — swapchain creation, cleanup and recreation,
* `src/engine/main.c`   — the frame lifecycle (`mossBeginFrame` /
  `mossEndFrame`),
* `src/internal/config.h` — the static engine parameters.

Modelling conventions:

* C `float` scalars are modelled by `ℚ`; the multiplications by `0.5F`
  and the additions/subtractions performed by the code are represented by
  the corresponding exact rational operations.
* `uint16_t` values (the index data and the running `base_vertex`
  counter of `mossAddSpritesToSpriteBatch`) are modelled as `Nat` reduced
  `% 65536` exactly where the C code truncates or wraps.
* The `uint32_t` field `indexCount` is modelled as `Nat` reduced
  `% 4294967296` at each increment, mirroring unsigned overflow.
* `size_t` byte counters (`vertexDataSize`, `indexDataSize`, …) are
  modelled as plain `Nat`: every increment of these counters is matched
  by at least as many bytes actually written through a pointer, so a
  64-bit wraparound is unreachable without prior undefined behaviour.
* Vulkan objects are opaque: handles are `Option Nat` (`none` is
  `VK_NULL_HANDLE`), and calls into the driver are recorded as events in
  a trace; driver-chosen results (image counts, error codes) enter as
  explicit environment parameters.
* The staging buffer of a sprite batch is modelled as the sequence of
  vertex records resp. 16-bit index slots written through the mapped
  pointer; `overwriteFrom` is pointer-offset writing at element
  granularity.
-/

/-- Result discriminator, `moss/result.h`: success or error. -/
inductive MossResult
  | success
  | error
deriving DecidableEq

/-- Scalar pair, cglm `vec2` with `ℚ` scalars. -/
abbrev Vec2 := ℚ × ℚ

/-- Scalar triple, cglm `vec3` with `ℚ` scalars. -/
abbrev Vec3 := ℚ × ℚ × ℚ

/-- Sprite record, `include/moss/sprite.h`; the nested `uv` struct is
flattened into the two corner fields. -/
structure MossSprite where
  depth : ℚ
  position : Vec2
  size : Vec2
  uvTopLeft : Vec2
  uvBottomRight : Vec2
deriving DecidableEq

/-- Vertex record, `src/internal/vertex.h`. -/
structure Moss__Vertex where
  position : Vec3
  texture_coords : Vec2
deriving DecidableEq

/-- Size in bytes of `Moss__Vertex` (five packed 32-bit floats). -/
def sizeofVertex : Nat := 20

/-- Size in bytes of `uint16_t`. -/
def sizeofUint16 : Nat := 2

/-- `MOSS__VERTICIES_PER_SPRITE`, `src/sprite_batch.c`. -/
def MOSS__VERTICIES_PER_SPRITE : Nat := 4

/-- `MOSS__INDICES_PER_SPRITE`, `src/sprite_batch.c`. -/
def MOSS__INDICES_PER_SPRITE : Nat := 6

/-- Modulus of `uint16_t` arithmetic. -/
def UINT16_MOD : Nat := 65536

/-- Modulus of `uint32_t` arithmetic. -/
def UINT32_MOD : Nat := 4294967296

/-- `MAX_FRAMES_IN_FLIGHT`, `src/internal/config.h`. -/
def MAX_FRAMES_IN_FLIGHT : Nat := 2

/-- `MAX_SWAPCHAIN_IMAGE_COUNT`, `src/internal/config.h`. -/
def MAX_SWAPCHAIN_IMAGE_COUNT : Nat := 4

/-- `mossGenerateVerticiesFromSprite`, `src/sprite_batch.c` lines
558-587: the four vertices written for one sprite, in the order the code
stores them (`pOutVertices[0] … pOutVertices[3]`). -/
def mossGenerateVerticiesFromSprite (pSprite : MossSprite) : List Moss__Vertex :=
  let half_width := pSprite.size.1 * (1/2)
  let half_height := pSprite.size.2 * (1/2)
  let bbox_left := pSprite.position.1 - half_width
  let bbox_right := pSprite.position.1 + half_width
  let bbox_bottom := pSprite.position.2 - half_height
  let bbox_top := pSprite.position.2 + half_height
  [ { position := (bbox_left, bbox_top, pSprite.depth),
      texture_coords := (pSprite.uvTopLeft.1, pSprite.uvTopLeft.2) },
    { position := (bbox_right, bbox_top, pSprite.depth),
      texture_coords := (pSprite.uvBottomRight.1, pSprite.uvTopLeft.2) },
    { position := (bbox_right, bbox_bottom, pSprite.depth),
      texture_coords := (pSprite.uvBottomRight.1, pSprite.uvBottomRight.2) },
    { position := (bbox_left, bbox_bottom, pSprite.depth),
      texture_coords := (pSprite.uvTopLeft.1, pSprite.uvBottomRight.2) } ]

/-- Sprite batch state, `struct MossSpriteBatch` in `src/sprite_batch.c`.
The opaque Vulkan handles (`buffer`, `bufferMemory`, `stagingBuffer`,
`stagingMemory`) carry no observable data and are omitted; the mapped
staging memory is represented by its vertex-region and index-region
contents plus the flag `mappedMemoryIsNull` standing for
`pMappedMemory == NULL`. -/
structure MossSpriteBatch where
  pOriginalEngine : Nat
  stagingVertexMem : List Moss__Vertex
  stagingIndexMem : List Nat
  bufferCapacity : Nat
  vertexDataOffset : Nat
  indexDataOffset : Nat
  vertexDataSize : Nat
  indexDataSize : Nat
  vertexCapacity : Nat
  indexCapacity : Nat
  indexCount : Nat
  isBegun : Bool
  mappedMemoryIsNull : Bool
deriving DecidableEq

/-- Write `xs` into `mem` starting at element offset `i`, keeping the
elements before `i` and after `i + xs.length`: pointer-offset store at
element granularity. -/
def overwriteFrom {α : Type} (mem : List α) (i : Nat) (xs : List α) : List α :=
  mem.take i ++ xs ++ mem.drop (i + xs.length)

/-- `mossCreateSpriteBatch`, `src/sprite_batch.c` lines 108-260, on the
path where every Vulkan allocation succeeds (the failure paths free
everything and return no batch).  The staging buffer starts mapped. -/
def mossCreateSpriteBatch (pEngine : Nat) (capacity : Nat) : MossSpriteBatch :=
  let vertexDataSize := capacity * sizeofVertex * MOSS__VERTICIES_PER_SPRITE
  let indexDataSize := capacity * sizeofUint16 * MOSS__INDICES_PER_SPRITE
  { pOriginalEngine := pEngine
    stagingVertexMem := []
    stagingIndexMem := []
    bufferCapacity := vertexDataSize + indexDataSize
    vertexDataOffset := 0
    indexDataOffset := vertexDataSize
    vertexDataSize := 0
    indexDataSize := 0
    vertexCapacity := vertexDataSize
    indexCapacity := indexDataSize
    indexCount := 0
    isBegun := false
    mappedMemoryIsNull := false }

/-- `mossClearSpriteBatch`, `src/sprite_batch.c` lines 300-306. -/
def mossClearSpriteBatch (pSpriteBatch : MossSpriteBatch) : MossSpriteBatch :=
  { pSpriteBatch with
    vertexDataSize := 0
    indexDataSize := 0
    indexCount := 0
    isBegun := false }

/-- `mossBeginSpriteBatch`, `src/sprite_batch.c` lines 308-328. -/
def mossBeginSpriteBatch (pSpriteBatch : MossSpriteBatch) :
    MossResult × MossSpriteBatch :=
  if pSpriteBatch.isBegun then (MossResult.error, pSpriteBatch)
  else if pSpriteBatch.mappedMemoryIsNull then (MossResult.error, pSpriteBatch)
  else (MossResult.success,
    { pSpriteBatch with
      isBegun := true
      vertexDataSize := 0
      indexDataSize := 0
      indexCount := 0 })

/-- Loop body of `mossAddSpritesToSpriteBatch` for one sprite: `pV` and
`pI` are the element offsets of the running write pointers `pVertices`
and `pIndices`, `bv` is the running `uint16_t` counter `base_vertex`. -/
def mossAddSpriteStep (b : MossSpriteBatch) (pV pI bv : Nat) (s : MossSprite) :
    MossSpriteBatch :=
  { b with
    stagingVertexMem := overwriteFrom b.stagingVertexMem pV (mossGenerateVerticiesFromSprite s)
    stagingIndexMem := overwriteFrom b.stagingIndexMem pI
      [ (bv + 0) % UINT16_MOD, (bv + 1) % UINT16_MOD, (bv + 2) % UINT16_MOD,
        (bv + 2) % UINT16_MOD, (bv + 3) % UINT16_MOD, (bv + 0) % UINT16_MOD ]
    vertexDataSize := b.vertexDataSize + sizeofVertex * MOSS__VERTICIES_PER_SPRITE
    indexDataSize := b.indexDataSize + sizeofUint16 * MOSS__INDICES_PER_SPRITE
    indexCount := (b.indexCount + MOSS__INDICES_PER_SPRITE) % UINT32_MOD }

/-- The `for` loop of `mossAddSpritesToSpriteBatch`, lines 357-375:
pointers advance by 4 vertices / 6 indices per sprite, `base_vertex`
advances by 4 with `uint16_t` wraparound. -/
def mossAddSpritesLoop (sprites : List MossSprite) (pV pI bv : Nat)
    (b : MossSpriteBatch) : MossSpriteBatch :=
  match sprites with
  | [] => b
  | s :: rest =>
      mossAddSpritesLoop rest (pV + MOSS__VERTICIES_PER_SPRITE)
        (pI + MOSS__INDICES_PER_SPRITE)
        ((bv + MOSS__VERTICIES_PER_SPRITE) % UINT16_MOD)
        (mossAddSpriteStep b pV pI bv s)

/-- Entry of the add loop from a batch state: the initial pointers are
placed at `vertexDataOffset + vertexDataSize` resp.
`indexDataOffset + indexDataSize` inside the mapped memory (expressed
here at element granularity relative to each region), and `base_vertex`
is `(uint16_t)(vertexDataSize / sizeof(Moss__Vertex))`. -/
def addFromState (b : MossSpriteBatch) (sprites : List MossSprite) : MossSpriteBatch :=
  mossAddSpritesLoop sprites (b.vertexDataSize / sizeofVertex)
    (b.indexDataSize / sizeofUint16)
    ((b.vertexDataSize / sizeofVertex) % UINT16_MOD) b

/-- `mossAddSpritesToSpriteBatch`, `src/sprite_batch.c` lines 330-378. -/
def mossAddSpritesToSpriteBatch (pSpriteBatch : MossSpriteBatch)
    (pSprites : List MossSprite) : MossResult × MossSpriteBatch :=
  if pSpriteBatch.isBegun = false then (MossResult.error, pSpriteBatch)
  else if pSpriteBatch.mappedMemoryIsNull then (MossResult.error, pSpriteBatch)
  else (MossResult.success, addFromState pSpriteBatch pSprites)

/-- `mossEndSpriteBatch`, `src/sprite_batch.c` lines 380-458, with the
GPU-side staging copy (an external, synchronously drained transfer)
modelled as succeeding; no claim depends on its failure paths. -/
def mossEndSpriteBatch (pSpriteBatch : MossSpriteBatch) :
    MossResult × MossSpriteBatch :=
  if pSpriteBatch.isBegun = false then (MossResult.error, pSpriteBatch)
  else (MossResult.success, { pSpriteBatch with isBegun := false })

/-- Commands `mossDrawSpriteBatch` can record into the frame command
buffer. -/
inductive DrawCmd
  | bindVertexBuffers (offset : Nat)
  | bindIndexBuffer (offset : Nat)
  | drawIndexed (count : Nat)
deriving DecidableEq

/-- `mossDrawSpriteBatch`, `src/sprite_batch.c` lines 460-507, for a
non-null engine and batch (a `NULL` argument is not a batch/engine and
is not representable here).  Returns the result, the batch (which the
function never mutates) and the recorded commands. -/
def mossDrawSpriteBatch (pEngine : Nat) (pSpriteBatch : MossSpriteBatch) :
    MossResult × MossSpriteBatch × List DrawCmd :=
  if pSpriteBatch.indexCount = 0 then (MossResult.success, pSpriteBatch, [])
  else if pSpriteBatch.isBegun then (MossResult.error, pSpriteBatch, [])
  else if pSpriteBatch.pOriginalEngine ≠ pEngine then (MossResult.error, pSpriteBatch, [])
  else (MossResult.success, pSpriteBatch,
    [ DrawCmd.bindVertexBuffers pSpriteBatch.vertexDataOffset,
      DrawCmd.bindIndexBuffer pSpriteBatch.indexDataOffset,
      DrawCmd.drawIndexed pSpriteBatch.indexCount ])

/-- Quad described by the spec ("Quad generation correctness" and the
Vertex data-model paragraph): corners of the axis-aligned rectangle
centered at `position` with full extents `size`, z equal to `depth`,
texture coordinates from the UV rectangle, winding top-left, top-right,
bottom-right, bottom-left. -/
def specQuadVertices (S : MossSprite) : List Moss__Vertex :=
  [ { position := (S.position.1 - S.size.1 / 2, S.position.2 + S.size.2 / 2, S.depth),
      texture_coords := (S.uvTopLeft.1, S.uvTopLeft.2) },
    { position := (S.position.1 + S.size.1 / 2, S.position.2 + S.size.2 / 2, S.depth),
      texture_coords := (S.uvBottomRight.1, S.uvTopLeft.2) },
    { position := (S.position.1 + S.size.1 / 2, S.position.2 - S.size.2 / 2, S.depth),
      texture_coords := (S.uvBottomRight.1, S.uvBottomRight.2) },
    { position := (S.position.1 - S.size.1 / 2, S.position.2 - S.size.2 / 2, S.depth),
      texture_coords := (S.uvTopLeft.1, S.uvBottomRight.2) } ]

/-- Sample sprite used by concrete witnesses. -/
def sampleSprite : MossSprite :=
  { depth := 7/2
    position := (3, 5)
    size := (2, 4)
    uvTopLeft := (0, 1/4)
    uvBottomRight := (1, 1) }

/-- Extent in pixels, `VkExtent2D`. -/
abbrev VkExtent2D := Nat × Nat

/-- The slice of `struct MossEngine` (`src/internal/engine.h`) the
frame-lifecycle and swapchain code reads and writes.  Handle-valued
fields are `Option Nat` with `none` for `VK_NULL_HANDLE`; the fixed
arrays `presentFramebuffers` and `presentFramebufferImageViews` are
lists of length `MAX_SWAPCHAIN_IMAGE_COUNT`. -/
structure MossEngine where
  swapchain : Option Nat
  swapchainImages : List Nat
  swapchainImageCount : Nat
  swapchainImageFormat : Nat
  swapchainExtent : VkExtent2D
  presentFramebufferImageViews : List (Option Nat)
  presentFramebuffers : List (Option Nat)
  depthImage : Option Nat
  depthImageView : Option Nat
  depthImageMemory : Option Nat
  currentFrame : Nat
  currentImageIndex : Nat
deriving DecidableEq

/-- Vulkan calls issued by the swapchain cleanup / recreation code,
recorded as trace events. -/
inductive VkCall
  | deviceWaitIdle
  | destroyFramebuffer (i : Nat)
  | destroyDepthImageView
  | freeDepthImageMemory
  | destroyDepthImage
  | destroyImageView (i : Nat)
  | destroySwapchainKHR
  | createSwapchainKHR (extent : VkExtent2D)
  | createSwapchainImageViews
  | createDepthResources
  | createPresentFramebuffers
deriving DecidableEq

/-- Driver-side outcomes of the Vulkan calls the swapchain code makes:
whether each creation call succeeds, the image count the driver reports,
and the surface format chosen. -/
structure VkEnv where
  createSwapchainOk : Bool
  driverImageCount : Nat
  surfaceFormat : Nat
  createImageViewsOk : Bool
  createDepthOk : Bool
  createFramebuffersOk : Bool
deriving DecidableEq

/-- `moss__cleanupSwapchainFramebuffers`, `src/engine/swapchain.c` lines
153-162: for each `i < swapchainImageCount`, destroy the framebuffer if
it is non-null and set the slot to `VK_NULL_HANDLE` (slots that are
already null stay null, so the state update is uniform). -/
def moss__cleanupSwapchainFramebuffers (pEngine : MossEngine) :
    MossEngine × List VkCall :=
  let fbs := pEngine.presentFramebuffers.mapIdx
    (fun i v => if i < pEngine.swapchainImageCount then none else v)
  ({ pEngine with presentFramebuffers := fbs },
   (List.range pEngine.swapchainImageCount).filterMap (fun i =>
     if (pEngine.presentFramebuffers.getD i none).isSome then
       some (VkCall.destroyFramebuffer i)
     else none))

/-- `moss__cleanupSwapchainImageViews`, `src/engine/swapchain.c` lines
164-177, same shape as the framebuffer cleanup. -/
def moss__cleanupSwapchainImageViews (pEngine : MossEngine) :
    MossEngine × List VkCall :=
  let views := pEngine.presentFramebufferImageViews.mapIdx
    (fun i v => if i < pEngine.swapchainImageCount then none else v)
  ({ pEngine with presentFramebufferImageViews := views },
   (List.range pEngine.swapchainImageCount).filterMap (fun i =>
     if (pEngine.presentFramebufferImageViews.getD i none).isSome then
       some (VkCall.destroyImageView i)
     else none))

/-- `moss__cleanupSwapchainHandle`, `src/engine/swapchain.c` lines
179-186. -/
def moss__cleanupSwapchainHandle (pEngine : MossEngine) :
    MossEngine × List VkCall :=
  match pEngine.swapchain with
  | none => (pEngine, [])
  | some _ => ({ pEngine with swapchain := none }, [VkCall.destroySwapchainKHR])

/-- `moss__cleanupDepthResources`, `src/engine/depth.c` lines 130-149:
view, then memory, then image, each guarded by a null check and nulled
afterwards. -/
def moss__cleanupDepthResources (pEngine : MossEngine) :
    MossEngine × List VkCall :=
  ({ pEngine with depthImageView := none, depthImageMemory := none, depthImage := none },
   (if pEngine.depthImageView.isSome then [VkCall.destroyDepthImageView] else []) ++
   (if pEngine.depthImageMemory.isSome then [VkCall.freeDepthImageMemory] else []) ++
   (if pEngine.depthImage.isSome then [VkCall.destroyDepthImage] else []))

/-- `moss__cleanupSwapchain`, `src/engine/swapchain.c` lines 188-198:
framebuffers, then depth resources, then image views, then the
swapchain handle, then zero the count, format and extent fields. -/
def moss__cleanupSwapchain (pEngine : MossEngine) : MossEngine × List VkCall :=
  let f := moss__cleanupSwapchainFramebuffers pEngine
  let d := moss__cleanupDepthResources f.1
  let v := moss__cleanupSwapchainImageViews d.1
  let h := moss__cleanupSwapchainHandle v.1
  ({ h.1 with
     swapchainImageCount := 0
     swapchainImageFormat := 0
     swapchainExtent := (0, 0) },
   f.2 ++ d.2 ++ v.2 ++ h.2)

/-- `moss__createSwapchain`, `src/engine/swapchain.c` lines 37-131.
`vkCreateSwapchainKHR` either fails (state untouched) or stores a fresh
handle; the first `vkGetSwapchainImagesKHR` call stores the
driver-reported count into `swapchainImageCount` BEFORE the bound check
against `MAX_SWAPCHAIN_IMAGE_COUNT`; only after the check passes is the
image array fetched and are format/extent stored.  The stored extent is
the `extent` argument. -/
def moss__createSwapchain (env : VkEnv) (pEngine : MossEngine)
    (extent : VkExtent2D) : MossResult × MossEngine × List VkCall :=
  if env.createSwapchainOk = false then
    (MossResult.error, pEngine, [VkCall.createSwapchainKHR extent])
  else
    let s1 := { pEngine with
      swapchain := some 1
      swapchainImageCount := env.driverImageCount }
    if s1.swapchainImageCount > MAX_SWAPCHAIN_IMAGE_COUNT then
      (MossResult.error, s1, [VkCall.createSwapchainKHR extent])
    else
      (MossResult.success,
       { s1 with
         swapchainImages := List.range env.driverImageCount
         swapchainImageFormat := env.surfaceFormat
         swapchainExtent := extent },
       [VkCall.createSwapchainKHR extent])

/-- `moss__createSwapchainImageViews`, `src/engine/swapchain.c` lines
133-151, abstracted to its per-phase outcome: on success one view per
swapchain image, on failure an error (partially created views are left
as they are by the C code as well). -/
def moss__createSwapchainImageViews (env : VkEnv) (pEngine : MossEngine) :
    MossResult × MossEngine × List VkCall :=
  if env.createImageViewsOk then
    let views := pEngine.presentFramebufferImageViews.mapIdx
      (fun i v => if i < pEngine.swapchainImageCount then some 1 else v)
    (MossResult.success,
     { pEngine with presentFramebufferImageViews := views },
     [VkCall.createSwapchainImageViews])
  else (MossResult.error, pEngine, [VkCall.createSwapchainImageViews])

/-- `moss__createDepthResources`, `src/engine/depth.c`, abstracted to
its per-phase outcome. -/
def moss__createDepthResources (env : VkEnv) (pEngine : MossEngine) :
    MossResult × MossEngine × List VkCall :=
  if env.createDepthOk then
    (MossResult.success,
     { pEngine with depthImage := some 1, depthImageView := some 1,
                    depthImageMemory := some 1 },
     [VkCall.createDepthResources])
  else (MossResult.error, pEngine, [VkCall.createDepthResources])

/-- `moss__createPresentFramebuffers`, `src/engine/framebuffer.c`,
abstracted to its per-phase outcome. -/
def moss__createPresentFramebuffers (env : VkEnv) (pEngine : MossEngine) :
    MossResult × MossEngine × List VkCall :=
  if env.createFramebuffersOk then
    let fbs := pEngine.presentFramebuffers.mapIdx
      (fun i v => if i < pEngine.swapchainImageCount then some 1 else v)
    (MossResult.success,
     { pEngine with presentFramebuffers := fbs },
     [VkCall.createPresentFramebuffers])
  else (MossResult.error, pEngine, [VkCall.createPresentFramebuffers])

/-- `moss__recreateSwapchain`, `src/engine/swapchain.c` lines 200-225:
wait for device idle, tear everything down, then recreate swapchain,
image views, depth resources and framebuffers, stopping at the first
failure. -/
def moss__recreateSwapchain (env : VkEnv) (pEngine : MossEngine)
    (extent : VkExtent2D) : MossResult × MossEngine × List VkCall :=
  let c := moss__cleanupSwapchain pEngine
  let t0 := VkCall.deviceWaitIdle :: c.2
  let a := moss__createSwapchain env c.1 extent
  if a.1 = MossResult.error then (MossResult.error, a.2.1, t0 ++ a.2.2)
  else
    let v := moss__createSwapchainImageViews env a.2.1
    if v.1 = MossResult.error then (MossResult.error, v.2.1, t0 ++ a.2.2 ++ v.2.2)
    else
      let d := moss__createDepthResources env v.2.1
      if d.1 = MossResult.error then
        (MossResult.error, d.2.1, t0 ++ a.2.2 ++ v.2.2 ++ d.2.2)
      else
        let f := moss__createPresentFramebuffers env d.2.1
        if f.1 = MossResult.error then
          (MossResult.error, f.2.1, t0 ++ a.2.2 ++ v.2.2 ++ d.2.2 ++ f.2.2)
        else
          (MossResult.success, f.2.1, t0 ++ a.2.2 ++ v.2.2 ++ d.2.2 ++ f.2.2)

/-- Result codes of `vkAcquireNextImageKHR` / `vkQueuePresentKHR` that
`src/engine/main.c` distinguishes. -/
inductive VkResult
  | success
  | suboptimalKHR
  | errorOutOfDateKHR
  | otherError
deriving DecidableEq

/-- Driver-side outcomes of the calls the frame lifecycle makes. -/
structure FrameEnv where
  acquireResult : VkResult
  acquiredImageIndex : Nat
  framebufferExtent : VkExtent2D
  beginCommandBufferOk : Bool
  endCommandBufferOk : Bool
  queueSubmitOk : Bool
  presentResult : VkResult
  vk : VkEnv
deriving DecidableEq

/-- Calls issued by `mossBeginFrame` / `mossEndFrame`, recorded as trace
events (`recreateSwapchain` summarizes the nested swapchain rebuild). -/
inductive FrameCall
  | waitForFences
  | resetFences
  | acquireNextImage
  | resetCommandBuffer
  | beginCommandBuffer
  | beginRenderPass (imageIndex : Nat)
  | bindPipeline
  | setViewport
  | setScissor
  | bindDescriptorSets
  | updateCameraUbo
  | recreateSwapchain (extent : VkExtent2D)
  | endRenderPass
  | endCommandBuffer
  | queueSubmit
  | queuePresent
deriving DecidableEq

/-- `mossBeginFrame`, `src/engine/main.c` lines 373-477.  On
`VK_ERROR_OUT_OF_DATE_KHR` the current framebuffer extent is queried and
the swapchain rebuilt synchronously, no frame is recorded; on any result
other than `VK_SUCCESS` / `VK_SUBOPTIMAL_KHR` the frame fails; otherwise
recording proceeds (there is no state recording that the acquire was
suboptimal). -/
def mossBeginFrame (env : FrameEnv) (pEngine : MossEngine) :
    MossResult × MossEngine × List FrameCall :=
  let pre : List FrameCall :=
    [FrameCall.waitForFences, FrameCall.resetFences, FrameCall.acquireNextImage]
  match env.acquireResult with
  | VkResult.errorOutOfDateKHR =>
      let r := moss__recreateSwapchain env.vk pEngine env.framebufferExtent
      (r.1, r.2.1, pre ++ [FrameCall.recreateSwapchain env.framebufferExtent])
  | VkResult.otherError => (MossResult.error, pEngine, pre)
  | _ =>
      let s0 := { pEngine with currentImageIndex := env.acquiredImageIndex }
      if env.beginCommandBufferOk = false then
        (MossResult.error, s0, pre ++ [FrameCall.resetCommandBuffer, FrameCall.beginCommandBuffer])
      else
        (MossResult.success, s0,
         pre ++ [FrameCall.resetCommandBuffer, FrameCall.beginCommandBuffer,
           FrameCall.beginRenderPass s0.currentImageIndex, FrameCall.bindPipeline,
           FrameCall.setViewport, FrameCall.setScissor,
           FrameCall.bindDescriptorSets, FrameCall.updateCameraUbo])

/-- `mossEndFrame`, `src/engine/main.c` lines 479-556.  Ends recording,
submits, presents; on out-of-date/suboptimal present the swapchain is
rebuilt with a freshly queried extent (an error there fails the call
before the frame index advances); on any other present failure the call
fails; on success `currentFrame` advances modulo
`MAX_FRAMES_IN_FLIGHT`. -/
def mossEndFrame (env : FrameEnv) (pEngine : MossEngine) :
    MossResult × MossEngine × List FrameCall :=
  if env.endCommandBufferOk = false then
    (MossResult.error, pEngine, [FrameCall.endRenderPass, FrameCall.endCommandBuffer])
  else if env.queueSubmitOk = false then
    (MossResult.error, pEngine,
     [FrameCall.endRenderPass, FrameCall.endCommandBuffer, FrameCall.queueSubmit])
  else
    let t1 : List FrameCall :=
      [FrameCall.endRenderPass, FrameCall.endCommandBuffer,
       FrameCall.queueSubmit, FrameCall.queuePresent]
    match env.presentResult with
    | VkResult.errorOutOfDateKHR | VkResult.suboptimalKHR =>
        let r := moss__recreateSwapchain env.vk pEngine env.framebufferExtent
        if r.1 = MossResult.error then
          (MossResult.error, r.2.1, t1 ++ [FrameCall.recreateSwapchain env.framebufferExtent])
        else
          (MossResult.success,
           { r.2.1 with currentFrame := (r.2.1.currentFrame + 1) % MAX_FRAMES_IN_FLIGHT },
           t1 ++ [FrameCall.recreateSwapchain env.framebufferExtent])
    | VkResult.otherError => (MossResult.error, pEngine, t1)
    | VkResult.success =>
        (MossResult.success,
         { pEngine with currentFrame := (pEngine.currentFrame + 1) % MAX_FRAMES_IN_FLIGHT },
         t1)

/-- The four generated vertices are exactly the quad the spec
describes. -/
theorem generate_eq_specQuad (S : MossSprite) :
    mossGenerateVerticiesFromSprite S = specQuadVertices S := by
  simp only [mossGenerateVerticiesFromSprite, specQuadVertices, List.cons.injEq,
    Moss__Vertex.mk.injEq, Prod.mk.injEq, and_true]
  norm_num
  ring_nf
  simp

/-- Writing at an offset inside the initialized region leaves the data
before the offset untouched. -/
theorem overwriteFrom_take {α : Type} (mem : List α) (i : Nat) (xs : List α)
    (h : i ≤ mem.length) :
    (overwriteFrom mem i xs).take i = mem.take i := by
  have hlen : (mem.take i).length = i := by
    simp [List.length_take, Nat.min_eq_left h]
  simp only [overwriteFrom, List.append_assoc]
  rw [List.take_left' hlen]

/-- Reading back the slice just written returns the written data. -/
theorem overwriteFrom_segment {α : Type} (mem : List α) (i : Nat) (xs : List α)
    (h : i ≤ mem.length) :
    ((overwriteFrom mem i xs).drop i).take xs.length = xs := by
  have hlen : (mem.take i).length = i := by
    simp [List.length_take, Nat.min_eq_left h]
  simp only [overwriteFrom, List.append_assoc]
  rw [List.drop_left' hlen, List.take_left]

/-- The add loop never touches `isBegun`. -/
theorem mossAddSpritesLoop_isBegun (sprites : List MossSprite) (pV pI bv : Nat)
    (b : MossSpriteBatch) :
    (mossAddSpritesLoop sprites pV pI bv b).isBegun = b.isBegun := by
  induction sprites generalizing pV pI bv b with
  | nil => rfl
  | cons s rest ih => simp [mossAddSpritesLoop, ih, mossAddSpriteStep]

/-- The add loop never touches the mapped-memory flag. -/
theorem mossAddSpritesLoop_mapped (sprites : List MossSprite) (pV pI bv : Nat)
    (b : MossSpriteBatch) :
    (mossAddSpritesLoop sprites pV pI bv b).mappedMemoryIsNull = b.mappedMemoryIsNull := by
  induction sprites generalizing pV pI bv b with
  | nil => rfl
  | cons s rest ih => simp [mossAddSpritesLoop, ih, mossAddSpriteStep]

/-- Processing a sprite and re-entering the loop from the updated state
computes the same write pointers and `base_vertex` the loop itself
carries: the per-iteration pointer bumps agree with recomputing them
from the advanced byte counters. -/
theorem addFromState_cons (b : MossSpriteBatch) (s : MossSprite) (rest : List MossSprite) :
    addFromState b (s :: rest) =
      addFromState
        (mossAddSpriteStep b (b.vertexDataSize / sizeofVertex)
          (b.indexDataSize / sizeofUint16)
          ((b.vertexDataSize / sizeofVertex) % UINT16_MOD) s)
        rest := by
  simp only [addFromState, mossAddSpritesLoop]
  have h1 : (mossAddSpriteStep b (b.vertexDataSize / sizeofVertex)
      (b.indexDataSize / sizeofUint16)
      ((b.vertexDataSize / sizeofVertex) % UINT16_MOD) s).vertexDataSize
      = b.vertexDataSize + sizeofVertex * MOSS__VERTICIES_PER_SPRITE := rfl
  have h2 : (mossAddSpriteStep b (b.vertexDataSize / sizeofVertex)
      (b.indexDataSize / sizeofUint16)
      ((b.vertexDataSize / sizeofVertex) % UINT16_MOD) s).indexDataSize
      = b.indexDataSize + sizeofUint16 * MOSS__INDICES_PER_SPRITE := rfl
  rw [h1, h2]
  have e1 : (b.vertexDataSize + sizeofVertex * MOSS__VERTICIES_PER_SPRITE) / sizeofVertex
      = b.vertexDataSize / sizeofVertex + MOSS__VERTICIES_PER_SPRITE := by
    simp only [sizeofVertex, MOSS__VERTICIES_PER_SPRITE]
    omega
  have e2 : (b.indexDataSize + sizeofUint16 * MOSS__INDICES_PER_SPRITE) / sizeofUint16
      = b.indexDataSize / sizeofUint16 + MOSS__INDICES_PER_SPRITE := by
    simp only [sizeofUint16, MOSS__INDICES_PER_SPRITE]
    omega
  rw [e1, e2, Nat.mod_add_mod]

/-- Appending sprite lists composes the loop. -/
theorem addFromState_append (b : MossSpriteBatch) (l1 l2 : List MossSprite) :
    addFromState b (l1 ++ l2) = addFromState (addFromState b l1) l2 := by
  induction l1 generalizing b with
  | nil => simp [addFromState, mossAddSpritesLoop]
  | cons s rest ih =>
      rw [List.cons_append, addFromState_cons, ih, ← addFromState_cons]

/-- Byte counter of the vertex region after the loop. -/
theorem mossAddSpritesLoop_vertexDataSize (sprites : List MossSprite) (pV pI bv : Nat)
    (b : MossSpriteBatch) :
    (mossAddSpritesLoop sprites pV pI bv b).vertexDataSize
      = b.vertexDataSize + sizeofVertex * MOSS__VERTICIES_PER_SPRITE * sprites.length := by
  induction sprites generalizing pV pI bv b with
  | nil => simp [mossAddSpritesLoop]
  | cons s rest ih =>
      simp only [mossAddSpritesLoop, ih, mossAddSpriteStep, List.length_cons,
        sizeofVertex, MOSS__VERTICIES_PER_SPRITE]
      omega

/-- Byte counter of the index region after the loop. -/
theorem mossAddSpritesLoop_indexDataSize (sprites : List MossSprite) (pV pI bv : Nat)
    (b : MossSpriteBatch) :
    (mossAddSpritesLoop sprites pV pI bv b).indexDataSize
      = b.indexDataSize + sizeofUint16 * MOSS__INDICES_PER_SPRITE * sprites.length := by
  induction sprites generalizing pV pI bv b with
  | nil => simp [mossAddSpritesLoop]
  | cons s rest ih =>
      simp only [mossAddSpritesLoop, ih, mossAddSpriteStep, List.length_cons,
        sizeofUint16, MOSS__INDICES_PER_SPRITE]
      omega

/-- The `uint32_t` index counter after the loop. -/
theorem mossAddSpritesLoop_indexCount (sprites : List MossSprite) (pV pI bv : Nat)
    (b : MossSpriteBatch) (hc : b.indexCount < UINT32_MOD) :
    (mossAddSpritesLoop sprites pV pI bv b).indexCount
      = (b.indexCount + MOSS__INDICES_PER_SPRITE * sprites.length) % UINT32_MOD := by
  induction sprites generalizing pV pI bv b with
  | nil =>
      simp only [mossAddSpritesLoop, List.length_nil, Nat.mul_zero, Nat.add_zero]
      exact (Nat.mod_eq_of_lt hc).symm
  | cons s rest ih =>
      have hc' : (mossAddSpriteStep b pV pI bv s).indexCount < UINT32_MOD := by
        simp only [mossAddSpriteStep]
        exact Nat.mod_lt _ (by simp [UINT32_MOD])
      have h := ih (pV + MOSS__VERTICIES_PER_SPRITE) (pI + MOSS__INDICES_PER_SPRITE)
        ((bv + MOSS__VERTICIES_PER_SPRITE) % UINT16_MOD) _ hc'
      simp only [mossAddSpritesLoop]
      rw [h]
      have hstep : (mossAddSpriteStep b pV pI bv s).indexCount
          = (b.indexCount + MOSS__INDICES_PER_SPRITE) % UINT32_MOD := rfl
      rw [hstep]
      simp only [List.length_cons, MOSS__INDICES_PER_SPRITE, UINT32_MOD]
      omega

/-- On a begun batch with mapped staging memory, add succeeds and runs
the loop from the current state. -/
theorem mossAddSprites_success (b : MossSpriteBatch) (l : List MossSprite)
    (hb : b.isBegun = true) (hm : b.mappedMemoryIsNull = false) :
    mossAddSpritesToSpriteBatch b l = (MossResult.success, addFromState b l) := by
  simp [mossAddSpritesToSpriteBatch, hb, hm]

/-- Sample begun batch used by concrete witnesses: capacity 2, engine 0,
freshly begun. -/
def sampleBegunBatch : MossSpriteBatch :=
  (mossBeginSpriteBatch (mossCreateSpriteBatch 0 2)).2

/-- C1: appending one sprite `S` to a begun batch succeeds and writes
exactly 4 vertices — the corners of the axis-aligned rectangle centered
at `S.position` with full extents `S.size` (corners at position ±
size/2), z equal to `S.depth`, texture coordinates from the UV
rectangle, winding top-left, top-right, bottom-right, bottom-left — and
exactly 6 sixteen-bit indices encoding triangles (0,1,2) and (2,3,0)
relative to the running base-vertex count
`vertexDataSize / sizeof(Vertex)` (truncated to 16 bits, as the code's
`uint16_t base_vertex` does); the byte counters advance by exactly
4 vertices and 6 indices, so the base-vertex count advances by 4 per
sprite.  The hypotheses say the batch is begun, the staging buffer is
mapped, and the write cursors lie inside the initialized region (true
of every state the begin/add protocol can reach). -/
theorem c1_quad_generation (b : MossSpriteBatch) (S : MossSprite)
    (hb : b.isBegun = true) (hm : b.mappedMemoryIsNull = false)
    (hv : b.vertexDataSize / sizeofVertex ≤ b.stagingVertexMem.length)
    (hi : b.indexDataSize / sizeofUint16 ≤ b.stagingIndexMem.length) :
    (mossAddSpritesToSpriteBatch b [S]).1 = MossResult.success ∧
    ((mossAddSpritesToSpriteBatch b [S]).2.stagingVertexMem.drop
        (b.vertexDataSize / sizeofVertex)).take 4 = specQuadVertices S ∧
    (mossAddSpritesToSpriteBatch b [S]).2.stagingVertexMem.take
        (b.vertexDataSize / sizeofVertex)
      = b.stagingVertexMem.take (b.vertexDataSize / sizeofVertex) ∧
    ((mossAddSpritesToSpriteBatch b [S]).2.stagingIndexMem.drop
        (b.indexDataSize / sizeofUint16)).take 6
      = [ (b.vertexDataSize / sizeofVertex + 0) % UINT16_MOD,
          (b.vertexDataSize / sizeofVertex + 1) % UINT16_MOD,
          (b.vertexDataSize / sizeofVertex + 2) % UINT16_MOD,
          (b.vertexDataSize / sizeofVertex + 2) % UINT16_MOD,
          (b.vertexDataSize / sizeofVertex + 3) % UINT16_MOD,
          (b.vertexDataSize / sizeofVertex + 0) % UINT16_MOD ] ∧
    (mossAddSpritesToSpriteBatch b [S]).2.stagingIndexMem.take
        (b.indexDataSize / sizeofUint16)
      = b.stagingIndexMem.take (b.indexDataSize / sizeofUint16) ∧
    (mossAddSpritesToSpriteBatch b [S]).2.vertexDataSize
      = b.vertexDataSize + 4 * sizeofVertex ∧
    (mossAddSpritesToSpriteBatch b [S]).2.indexDataSize
      = b.indexDataSize + 6 * sizeofUint16 := by
  rw [mossAddSprites_success b [S] hb hm]
  have hstate : addFromState b [S]
      = mossAddSpriteStep b (b.vertexDataSize / sizeofVertex)
          (b.indexDataSize / sizeofUint16)
          ((b.vertexDataSize / sizeofVertex) % UINT16_MOD) S := by
    rw [addFromState_cons]
    rfl
  rw [hstate]
  have hmemV : (mossAddSpriteStep b (b.vertexDataSize / sizeofVertex)
      (b.indexDataSize / sizeofUint16)
      ((b.vertexDataSize / sizeofVertex) % UINT16_MOD) S).stagingVertexMem
      = overwriteFrom b.stagingVertexMem (b.vertexDataSize / sizeofVertex)
          (mossGenerateVerticiesFromSprite S) := rfl
  have hmemI : (mossAddSpriteStep b (b.vertexDataSize / sizeofVertex)
      (b.indexDataSize / sizeofUint16)
      ((b.vertexDataSize / sizeofVertex) % UINT16_MOD) S).stagingIndexMem
      = overwriteFrom b.stagingIndexMem (b.indexDataSize / sizeofUint16)
          [ ((b.vertexDataSize / sizeofVertex) % UINT16_MOD + 0) % UINT16_MOD,
            ((b.vertexDataSize / sizeofVertex) % UINT16_MOD + 1) % UINT16_MOD,
            ((b.vertexDataSize / sizeofVertex) % UINT16_MOD + 2) % UINT16_MOD,
            ((b.vertexDataSize / sizeofVertex) % UINT16_MOD + 2) % UINT16_MOD,
            ((b.vertexDataSize / sizeofVertex) % UINT16_MOD + 3) % UINT16_MOD,
            ((b.vertexDataSize / sizeofVertex) % UINT16_MOD + 0) % UINT16_MOD ] := rfl
  have hlen4 : (mossGenerateVerticiesFromSprite S).length = 4 := by
    simp [mossGenerateVerticiesFromSprite]
  refine ⟨rfl, ?_, ?_, ?_, ?_, ?_, ?_⟩
  · rw [hmemV, show (4 : Nat) = (mossGenerateVerticiesFromSprite S).length from hlen4.symm,
      overwriteFrom_segment _ _ _ hv, generate_eq_specQuad]
  · rw [hmemV, overwriteFrom_take _ _ _ hv]
  · rw [hmemI]
    have h6 : ([ ((b.vertexDataSize / sizeofVertex) % UINT16_MOD + 0) % UINT16_MOD,
        ((b.vertexDataSize / sizeofVertex) % UINT16_MOD + 1) % UINT16_MOD,
        ((b.vertexDataSize / sizeofVertex) % UINT16_MOD + 2) % UINT16_MOD,
        ((b.vertexDataSize / sizeofVertex) % UINT16_MOD + 2) % UINT16_MOD,
        ((b.vertexDataSize / sizeofVertex) % UINT16_MOD + 3) % UINT16_MOD,
        ((b.vertexDataSize / sizeofVertex) % UINT16_MOD + 0) % UINT16_MOD ] : List Nat).length
        = 6 := by simp
    rw [show (6 : Nat) = _ from h6.symm, overwriteFrom_segment _ _ _ hi]
    simp [Nat.mod_add_mod]
  · rw [hmemI, overwriteFrom_take _ _ _ hi]
  · show b.vertexDataSize + sizeofVertex * MOSS__VERTICIES_PER_SPRITE
      = b.vertexDataSize + 4 * sizeofVertex
    simp only [sizeofVertex, MOSS__VERTICIES_PER_SPRITE]
  · show b.indexDataSize + sizeofUint16 * MOSS__INDICES_PER_SPRITE
      = b.indexDataSize + 6 * sizeofUint16
    simp only [sizeofUint16, MOSS__INDICES_PER_SPRITE]

/-- Witness for C1: a concrete begun batch and sprite satisfying every
hypothesis, with the quad and index conclusions instantiated. -/
theorem c1_quad_generation_witness :
    (mossAddSpritesToSpriteBatch sampleBegunBatch [sampleSprite]).1 = MossResult.success ∧
    ((mossAddSpritesToSpriteBatch sampleBegunBatch [sampleSprite]).2.stagingVertexMem.drop
        (sampleBegunBatch.vertexDataSize / sizeofVertex)).take 4
      = specQuadVertices sampleSprite ∧
    ((mossAddSpritesToSpriteBatch sampleBegunBatch [sampleSprite]).2.stagingIndexMem.drop
        (sampleBegunBatch.indexDataSize / sizeofUint16)).take 6
      = [ (sampleBegunBatch.vertexDataSize / sizeofVertex + 0) % UINT16_MOD,
          (sampleBegunBatch.vertexDataSize / sizeofVertex + 1) % UINT16_MOD,
          (sampleBegunBatch.vertexDataSize / sizeofVertex + 2) % UINT16_MOD,
          (sampleBegunBatch.vertexDataSize / sizeofVertex + 2) % UINT16_MOD,
          (sampleBegunBatch.vertexDataSize / sizeofVertex + 3) % UINT16_MOD,
          (sampleBegunBatch.vertexDataSize / sizeofVertex + 0) % UINT16_MOD ] :=
  ⟨(c1_quad_generation sampleBegunBatch sampleSprite (by decide) (by decide)
      (by decide) (by decide)).1,
   (c1_quad_generation sampleBegunBatch sampleSprite (by decide) (by decide)
      (by decide) (by decide)).2.1,
   (c1_quad_generation sampleBegunBatch sampleSprite (by decide) (by decide)
      (by decide) (by decide)).2.2.2.1⟩

/-- C2 counterexample: the claim says a `draw` issued while the batch is
still begun, or against a different engine, is refused with an error.
On a freshly begun batch (accumulated index count zero) `draw` checks
`indexCount == 0` FIRST and returns success — both while the batch is
begun and when the engine differs from the creating one. -/
theorem c2_counterexample :
    sampleBegunBatch.isBegun = true ∧
    sampleBegunBatch.pOriginalEngine = 0 ∧
    (mossDrawSpriteBatch 0 sampleBegunBatch).1 = MossResult.success ∧
    (mossDrawSpriteBatch 1 sampleBegunBatch).1 = MossResult.success := by
  decide

/-- C2 (amended): every protocol-violating call is refused with an error
and leaves the batch completely unmutated — add or end when not begun,
begin while begun; and draw while still begun or on a different engine
is refused PROVIDED the accumulated index count is nonzero (a zero
index count makes draw return success before any protocol check).
Returning the batch unchanged means every re-queried field, in
particular `vertexDataSize`, `indexDataSize`, `indexCount` and the
begun flag, yields its pre-call value. -/
theorem c2_protocol_enforcement
    (b1 b2 b3 b4 b5 : MossSpriteBatch) (l : List MossSprite) (e4 e5 : Nat)
    (h1 : b1.isBegun = false)
    (h2 : b2.isBegun = false)
    (h3 : b3.isBegun = true)
    (h4 : b4.isBegun = true) (h4n : b4.indexCount ≠ 0)
    (h5n : b5.indexCount ≠ 0) (h5e : b5.pOriginalEngine ≠ e5) :
    mossAddSpritesToSpriteBatch b1 l = (MossResult.error, b1) ∧
    mossEndSpriteBatch b2 = (MossResult.error, b2) ∧
    mossBeginSpriteBatch b3 = (MossResult.error, b3) ∧
    mossDrawSpriteBatch e4 b4 = (MossResult.error, b4, []) ∧
    mossDrawSpriteBatch e5 b5 = (MossResult.error, b5, []) := by
  refine ⟨?_, ?_, ?_, ?_, ?_⟩
  · simp [mossAddSpritesToSpriteBatch, h1]
  · simp [mossEndSpriteBatch, h2]
  · simp [mossBeginSpriteBatch, h3]
  · simp [mossDrawSpriteBatch, h4, h4n]
  · rcases hb5 : b5.isBegun with _ | _
    · simp [mossDrawSpriteBatch, h5n, hb5, h5e]
    · simp [mossDrawSpriteBatch, h5n, hb5]

/-- Witness for C2 (amended): concrete batches for each refused call. -/
theorem c2_protocol_enforcement_witness :
    mossAddSpritesToSpriteBatch (mossCreateSpriteBatch 0 2) [sampleSprite]
      = (MossResult.error, mossCreateSpriteBatch 0 2) ∧
    mossEndSpriteBatch (mossCreateSpriteBatch 0 2)
      = (MossResult.error, mossCreateSpriteBatch 0 2) ∧
    mossBeginSpriteBatch sampleBegunBatch = (MossResult.error, sampleBegunBatch) ∧
    mossDrawSpriteBatch 0 (addFromState sampleBegunBatch [sampleSprite])
      = (MossResult.error, addFromState sampleBegunBatch [sampleSprite], []) ∧
    mossDrawSpriteBatch 7 (mossEndSpriteBatch (addFromState sampleBegunBatch [sampleSprite])).2
      = (MossResult.error, (mossEndSpriteBatch (addFromState sampleBegunBatch [sampleSprite])).2, []) :=
  c2_protocol_enforcement _ _ _ _ _ [sampleSprite] 0 7
    (by decide) (by decide) (by decide)
    (by rw [show (addFromState sampleBegunBatch [sampleSprite]).isBegun
          = sampleBegunBatch.isBegun from mossAddSpritesLoop_isBegun _ _ _ _ _]
        decide)
    (by decide) (by decide) (by decide)

/-- C4: within one begin session, a single `add` with `[A, B]` produces
exactly the same result and batch state — vertex bytes, index bytes and
all counters — as `add [A]` followed by `add [B]`. -/
theorem c4_order_preservation (b : MossSpriteBatch) (A B : MossSprite)
    (hb : b.isBegun = true) (hm : b.mappedMemoryIsNull = false) :
    (mossAddSpritesToSpriteBatch b [A]).1 = MossResult.success ∧
    (mossAddSpritesToSpriteBatch (mossAddSpritesToSpriteBatch b [A]).2 [B]).1
      = MossResult.success ∧
    mossAddSpritesToSpriteBatch b [A, B]
      = mossAddSpritesToSpriteBatch (mossAddSpritesToSpriteBatch b [A]).2 [B] := by
  have hA := mossAddSprites_success b [A] hb hm
  have hb' : (addFromState b [A]).isBegun = true := by
    rw [show (addFromState b [A]).isBegun = b.isBegun
      from mossAddSpritesLoop_isBegun _ _ _ _ _]
    exact hb
  have hm' : (addFromState b [A]).mappedMemoryIsNull = false := by
    rw [show (addFromState b [A]).mappedMemoryIsNull = b.mappedMemoryIsNull
      from mossAddSpritesLoop_mapped _ _ _ _ _]
    exact hm
  have hB := mossAddSprites_success (addFromState b [A]) [B] hb' hm'
  refine ⟨by rw [hA], ?_, ?_⟩
  · rw [hA]
    rw [hB]
  · rw [mossAddSprites_success b [A, B] hb hm, hA, hB,
      show ([A, B] : List MossSprite) = [A] ++ [B] from rfl,
      addFromState_append]

/-- Witness for C4: the concrete begun batch with two sample sprites. -/
theorem c4_order_preservation_witness :
    mossAddSpritesToSpriteBatch sampleBegunBatch [sampleSprite, sampleSprite]
      = mossAddSpritesToSpriteBatch
          (mossAddSpritesToSpriteBatch sampleBegunBatch [sampleSprite]).2 [sampleSprite] :=
  (c4_order_preservation sampleBegunBatch sampleSprite sampleSprite
    (by decide) (by decide)).2.2

/-- C8: drawing a batch whose accumulated index count is zero returns
success, records no command at all (no buffer binds, no draw), and
leaves the batch unchanged. -/
theorem c8_draw_empty (pEngine : Nat) (b : MossSpriteBatch)
    (h : b.indexCount = 0) :
    mossDrawSpriteBatch pEngine b = (MossResult.success, b, []) := by
  simp [mossDrawSpriteBatch, h]

/-- Witness for C8: a freshly created batch has index count zero. -/
theorem c8_draw_empty_witness :
    mossDrawSpriteBatch 5 (mossCreateSpriteBatch 0 3)
      = (MossResult.success, mossCreateSpriteBatch 0 3, []) :=
  c8_draw_empty 5 (mossCreateSpriteBatch 0 3) (by decide)

/-- C10: `clear`, in any state including mid-session, sets
`vertexDataSize`, `indexDataSize`, `indexCount` to zero and clears the
begun flag, leaves every other field (engine pointer, staging contents,
capacity, offsets, capacities, mapped flag) unchanged, and a subsequent
`add` fails until `begin` is called again — after which `add` succeeds.
The hypothesis (staging buffer mapped) holds for every live batch:
creation maps it and only destruction unmaps. -/
theorem c10_clear_aborts_session (b : MossSpriteBatch) (l : List MossSprite)
    (hm : b.mappedMemoryIsNull = false) :
    (mossClearSpriteBatch b).vertexDataSize = 0 ∧
    (mossClearSpriteBatch b).indexDataSize = 0 ∧
    (mossClearSpriteBatch b).indexCount = 0 ∧
    (mossClearSpriteBatch b).isBegun = false ∧
    (mossClearSpriteBatch b).pOriginalEngine = b.pOriginalEngine ∧
    (mossClearSpriteBatch b).stagingVertexMem = b.stagingVertexMem ∧
    (mossClearSpriteBatch b).stagingIndexMem = b.stagingIndexMem ∧
    (mossClearSpriteBatch b).bufferCapacity = b.bufferCapacity ∧
    (mossClearSpriteBatch b).vertexDataOffset = b.vertexDataOffset ∧
    (mossClearSpriteBatch b).indexDataOffset = b.indexDataOffset ∧
    (mossClearSpriteBatch b).vertexCapacity = b.vertexCapacity ∧
    (mossClearSpriteBatch b).indexCapacity = b.indexCapacity ∧
    (mossClearSpriteBatch b).mappedMemoryIsNull = b.mappedMemoryIsNull ∧
    (mossAddSpritesToSpriteBatch (mossClearSpriteBatch b) l).1 = MossResult.error ∧
    (mossAddSpritesToSpriteBatch (mossClearSpriteBatch b) l).2 = mossClearSpriteBatch b ∧
    (mossAddSpritesToSpriteBatch
        (mossBeginSpriteBatch (mossClearSpriteBatch b)).2 l).1 = MossResult.success := by
  refine ⟨rfl, rfl, rfl, rfl, rfl, rfl, rfl, rfl, rfl, rfl, rfl, rfl, rfl, ?_, ?_, ?_⟩
  · simp [mossAddSpritesToSpriteBatch, mossClearSpriteBatch]
  · simp [mossAddSpritesToSpriteBatch, mossClearSpriteBatch]
  · have hbeg : (mossBeginSpriteBatch (mossClearSpriteBatch b)).2.isBegun = true := by
      simp [mossBeginSpriteBatch, mossClearSpriteBatch, hm]
    have hmap : (mossBeginSpriteBatch (mossClearSpriteBatch b)).2.mappedMemoryIsNull = false := by
      simp [mossBeginSpriteBatch, mossClearSpriteBatch, hm]
    rw [mossAddSprites_success _ l hbeg hmap]

/-- Witness for C10: clearing a mid-session batch with data. -/
theorem c10_clear_aborts_session_witness :
    (mossClearSpriteBatch (addFromState sampleBegunBatch [sampleSprite])).indexCount = 0 ∧
    (mossClearSpriteBatch (addFromState sampleBegunBatch [sampleSprite])).isBegun = false ∧
    (mossAddSpritesToSpriteBatch
        (mossClearSpriteBatch (addFromState sampleBegunBatch [sampleSprite]))
        [sampleSprite]).1 = MossResult.error :=
  ⟨(c10_clear_aborts_session (addFromState sampleBegunBatch [sampleSprite]) [sampleSprite]
      (by rw [show (addFromState sampleBegunBatch [sampleSprite]).mappedMemoryIsNull
            = sampleBegunBatch.mappedMemoryIsNull from mossAddSpritesLoop_mapped _ _ _ _ _]
          decide)).2.2.1,
   (c10_clear_aborts_session (addFromState sampleBegunBatch [sampleSprite]) [sampleSprite]
      (by rw [show (addFromState sampleBegunBatch [sampleSprite]).mappedMemoryIsNull
            = sampleBegunBatch.mappedMemoryIsNull from mossAddSpritesLoop_mapped _ _ _ _ _]
          decide)).2.2.2.1,
   (c10_clear_aborts_session (addFromState sampleBegunBatch [sampleSprite]) [sampleSprite]
      (by rw [show (addFromState sampleBegunBatch [sampleSprite]).mappedMemoryIsNull
            = sampleBegunBatch.mappedMemoryIsNull from mossAddSpritesLoop_mapped _ _ _ _ _]
          decide)).2.2.2.2.2.2.2.2.2.2.2.2.2.1⟩

/-- A begin session consisting of several `add` calls in sequence
(`src/sprite_batch.c` imposes no further structure: each call resumes at
the current cursors). -/
def addAllCalls (b : MossSpriteBatch) (calls : List (List MossSprite)) : MossSpriteBatch :=
  calls.foldl (fun st l => (mossAddSpritesToSpriteBatch st l).2) b

/-- Entry-point form of `mossAddSpritesLoop_isBegun`. -/
theorem addFromState_isBegun (b : MossSpriteBatch) (l : List MossSprite) :
    (addFromState b l).isBegun = b.isBegun :=
  mossAddSpritesLoop_isBegun _ _ _ _ _

/-- Entry-point form of `mossAddSpritesLoop_mapped`. -/
theorem addFromState_mapped (b : MossSpriteBatch) (l : List MossSprite) :
    (addFromState b l).mappedMemoryIsNull = b.mappedMemoryIsNull :=
  mossAddSpritesLoop_mapped _ _ _ _ _

/-- Entry-point form of `mossAddSpritesLoop_vertexDataSize`. -/
theorem addFromState_vertexDataSize (b : MossSpriteBatch) (l : List MossSprite) :
    (addFromState b l).vertexDataSize
      = b.vertexDataSize + sizeofVertex * MOSS__VERTICIES_PER_SPRITE * l.length :=
  mossAddSpritesLoop_vertexDataSize _ _ _ _ _

/-- Entry-point form of `mossAddSpritesLoop_indexDataSize`. -/
theorem addFromState_indexDataSize (b : MossSpriteBatch) (l : List MossSprite) :
    (addFromState b l).indexDataSize
      = b.indexDataSize + sizeofUint16 * MOSS__INDICES_PER_SPRITE * l.length :=
  mossAddSpritesLoop_indexDataSize _ _ _ _ _

/-- Entry-point form of `mossAddSpritesLoop_indexCount`. -/
theorem addFromState_indexCount (b : MossSpriteBatch) (l : List MossSprite)
    (hc : b.indexCount < UINT32_MOD) :
    (addFromState b l).indexCount
      = (b.indexCount + MOSS__INDICES_PER_SPRITE * l.length) % UINT32_MOD :=
  mossAddSpritesLoop_indexCount _ _ _ _ _ hc

/-- Counter bookkeeping across a whole session of `add` calls on a begun
batch. -/
theorem addAllCalls_counts (calls : List (List MossSprite)) (b : MossSpriteBatch)
    (hb : b.isBegun = true) (hm : b.mappedMemoryIsNull = false)
    (hc : b.indexCount < UINT32_MOD) :
    (addAllCalls b calls).vertexDataSize
      = b.vertexDataSize + sizeofVertex * MOSS__VERTICIES_PER_SPRITE *
          (calls.map List.length).sum ∧
    (addAllCalls b calls).indexDataSize
      = b.indexDataSize + sizeofUint16 * MOSS__INDICES_PER_SPRITE *
          (calls.map List.length).sum ∧
    (addAllCalls b calls).indexCount
      = (b.indexCount + MOSS__INDICES_PER_SPRITE * (calls.map List.length).sum)
          % UINT32_MOD := by
  induction calls generalizing b with
  | nil =>
      refine ⟨by simp [addAllCalls], by simp [addAllCalls], ?_⟩
      simp only [addAllCalls, List.foldl_nil, List.map_nil, List.sum_nil,
        Nat.mul_zero, Nat.add_zero]
      exact (Nat.mod_eq_of_lt hc).symm
  | cons l rest ih =>
      have hstep := mossAddSprites_success b l hb hm
      have hb' : (addFromState b l).isBegun = true := by
        rw [addFromState_isBegun]
        exact hb
      have hm' : (addFromState b l).mappedMemoryIsNull = false := by
        rw [addFromState_mapped]
        exact hm
      have hc' : (addFromState b l).indexCount < UINT32_MOD := by
        rw [addFromState_indexCount b l hc]
        exact Nat.mod_lt _ (by simp [UINT32_MOD])
      have hfold : addAllCalls b (l :: rest) = addAllCalls (addFromState b l) rest := by
        simp [addAllCalls, hstep]
      obtain ⟨ihv, ihi, ihc⟩ := ih (addFromState b l) hb' hm' hc'
      refine ⟨?_, ?_, ?_⟩
      · rw [hfold, ihv, addFromState_vertexDataSize]
        simp only [List.map_cons, List.sum_cons, sizeofVertex, MOSS__VERTICIES_PER_SPRITE]
        omega
      · rw [hfold, ihi, addFromState_indexDataSize]
        simp only [List.map_cons, List.sum_cons, sizeofUint16, MOSS__INDICES_PER_SPRITE]
        omega
      · rw [hfold, ihc, addFromState_indexCount b l hc]
        simp only [List.map_cons, List.sum_cons, MOSS__INDICES_PER_SPRITE, UINT32_MOD]
        omega

/-- Freshly begun batch from create: begun, mapped, counters zero. -/
theorem begin_create_state (pEngine capacity : Nat) :
    (mossBeginSpriteBatch (mossCreateSpriteBatch pEngine capacity)).2.isBegun = true ∧
    (mossBeginSpriteBatch (mossCreateSpriteBatch pEngine capacity)).2.mappedMemoryIsNull
      = false ∧
    (mossBeginSpriteBatch (mossCreateSpriteBatch pEngine capacity)).2.vertexDataSize = 0 ∧
    (mossBeginSpriteBatch (mossCreateSpriteBatch pEngine capacity)).2.indexDataSize = 0 ∧
    (mossBeginSpriteBatch (mossCreateSpriteBatch pEngine capacity)).2.indexCount = 0 := by
  simp [mossBeginSpriteBatch, mossCreateSpriteBatch]

/-- C3 counterexample: the claim asserts `indexCount = 6·N` for EVERY
`N ≤ capacity`, but `indexCount` is a `uint32_t`: at capacity
`N = 2^31` the counter wraps, `6·2^31 mod 2^32 = 0`, so after adding
`2^31` sprites (`N ≤ capacity` holds) the stored index count is not
`6·N`.  (The byte counters, being `size_t`, stay exact.) -/
theorem c3_counterexample :
    (([List.replicate (2 ^ 31) sampleSprite].map List.length).sum ≤ 2 ^ 31) ∧
    (addAllCalls (mossBeginSpriteBatch (mossCreateSpriteBatch 0 (2 ^ 31))).2
        [List.replicate (2 ^ 31) sampleSprite]).indexCount
      ≠ 6 * (([List.replicate (2 ^ 31) sampleSprite].map List.length).sum) := by
  obtain ⟨hb, hm, _, _, hcnt⟩ := begin_create_state 0 (2 ^ 31)
  have hlen : ([List.replicate (2 ^ 31) sampleSprite].map List.length).sum = 2 ^ 31 := by
    rw [List.map_cons, List.map_nil, List.sum_cons, List.sum_nil, List.length_replicate,
      Nat.add_zero]
  constructor
  · exact hlen.le
  · have hc : (mossBeginSpriteBatch (mossCreateSpriteBatch 0 (2 ^ 31))).2.indexCount
        < UINT32_MOD := by
      rw [hcnt]
      decide
    obtain ⟨_, _, hicnt⟩ := addAllCalls_counts [List.replicate (2 ^ 31) sampleSprite]
      (mossBeginSpriteBatch (mossCreateSpriteBatch 0 (2 ^ 31))).2 hb hm hc
    rw [hicnt, hcnt, hlen]
    decide

/-- C3 (amended): after `N` total sprites added since the last `begin`
across any number of `add` calls, with `N ≤ capacity`, the byte counters
are exact — `vertexDataSize = 4·N·sizeof(Vertex)` and
`indexDataSize = 6·N·sizeof(uint16)` — and `indexCount = 6·N` whenever
`6·N` fits a `uint32_t` (automatic for every capacity within the
documented 16-bit-index ceiling `4·capacity ≤ 65536`; without that bound
the counter is `6·N mod 2^32`); `begin` resets all three counters to
zero whenever it succeeds. -/
theorem c3_count_invariants (pEngine capacity N : Nat)
    (calls : List (List MossSprite))
    (hN : (calls.map List.length).sum = N) (hcap : N ≤ capacity)
    (hw : 6 * N < UINT32_MOD) :
    (addAllCalls (mossBeginSpriteBatch (mossCreateSpriteBatch pEngine capacity)).2
        calls).indexCount = 6 * N ∧
    (addAllCalls (mossBeginSpriteBatch (mossCreateSpriteBatch pEngine capacity)).2
        calls).vertexDataSize = 4 * N * sizeofVertex ∧
    (addAllCalls (mossBeginSpriteBatch (mossCreateSpriteBatch pEngine capacity)).2
        calls).indexDataSize = 6 * N * sizeofUint16 ∧
    (∀ c : MossSpriteBatch, c.isBegun = false → c.mappedMemoryIsNull = false →
      (mossBeginSpriteBatch c).2.vertexDataSize = 0 ∧
      (mossBeginSpriteBatch c).2.indexDataSize = 0 ∧
      (mossBeginSpriteBatch c).2.indexCount = 0) := by
  obtain ⟨hb, hm, hv0, hi0, hc0⟩ := begin_create_state pEngine capacity
  have hc : (mossBeginSpriteBatch (mossCreateSpriteBatch pEngine capacity)).2.indexCount
      < UINT32_MOD := by
    rw [hc0]
    simp [UINT32_MOD]
  obtain ⟨hcv, hci, hcc⟩ := addAllCalls_counts calls
    (mossBeginSpriteBatch (mossCreateSpriteBatch pEngine capacity)).2 hb hm hc
  refine ⟨?_, ?_, ?_, ?_⟩
  · rw [hcc, hc0, hN]
    simp only [MOSS__INDICES_PER_SPRITE, Nat.zero_add]
    exact Nat.mod_eq_of_lt hw
  · rw [hcv, hv0, hN]
    simp only [sizeofVertex, MOSS__VERTICIES_PER_SPRITE]
    omega
  · rw [hci, hi0, hN]
    simp only [sizeofUint16, MOSS__INDICES_PER_SPRITE]
    omega
  · intro c hcb hcm
    simp [mossBeginSpriteBatch, hcb, hcm]

/-- Witness for C3 (amended): two add calls of one sprite each on a
capacity-2 batch. -/
theorem c3_count_invariants_witness :
    (addAllCalls (mossBeginSpriteBatch (mossCreateSpriteBatch 0 2)).2
        [[sampleSprite], [sampleSprite]]).indexCount = 6 * 2 ∧
    (addAllCalls (mossBeginSpriteBatch (mossCreateSpriteBatch 0 2)).2
        [[sampleSprite], [sampleSprite]]).vertexDataSize = 4 * 2 * sizeofVertex :=
  ⟨(c3_count_invariants 0 2 2 [[sampleSprite], [sampleSprite]]
      (by decide) (by decide) (by decide)).1,
   (c3_count_invariants 0 2 2 [[sampleSprite], [sampleSprite]]
      (by decide) (by decide) (by decide)).2.1⟩

/-- Phase number of each Vulkan call in the order the rebuild actually
performs them: wait, destroy framebuffers, destroy depth resources,
destroy image views, destroy the swapchain handle, then the four
creation phases. -/
def vkCallPhase : VkCall → Nat
  | VkCall.deviceWaitIdle => 0
  | VkCall.destroyFramebuffer _ => 1
  | VkCall.destroyDepthImageView => 2
  | VkCall.freeDepthImageMemory => 2
  | VkCall.destroyDepthImage => 2
  | VkCall.destroyImageView _ => 3
  | VkCall.destroySwapchainKHR => 4
  | VkCall.createSwapchainKHR _ => 5
  | VkCall.createSwapchainImageViews => 6
  | VkCall.createDepthResources => 7
  | VkCall.createPresentFramebuffers => 8

/-- Phase number of each Vulkan call in the order claimed by the spec:
framebuffers, then image views, then the swapchain handle, then depth
resources. -/
def vkCallPhaseClaimed : VkCall → Nat
  | VkCall.deviceWaitIdle => 0
  | VkCall.destroyFramebuffer _ => 1
  | VkCall.destroyImageView _ => 2
  | VkCall.destroySwapchainKHR => 3
  | VkCall.destroyDepthImageView => 4
  | VkCall.freeDepthImageMemory => 4
  | VkCall.destroyDepthImage => 4
  | VkCall.createSwapchainKHR _ => 5
  | VkCall.createSwapchainImageViews => 6
  | VkCall.createDepthResources => 7
  | VkCall.createPresentFramebuffers => 8

/-- A list whose events all sit in one phase is phase-monotone. -/
theorem pairwise_phase_const {l : List VkCall} {c : Nat}
    (h : ∀ e ∈ l, vkCallPhase e = c) :
    (l.map vkCallPhase).Pairwise (fun a b => a ≤ b) := by
  induction l with
  | nil => simp
  | cons x xs ih =>
      simp only [List.map_cons, List.pairwise_cons]
      constructor
      · intro y hy
        obtain ⟨z, hz, rfl⟩ := List.mem_map.mp hy
        rw [h x (by simp), h z (List.mem_cons_of_mem _ hz)]
      · exact ih (fun e he => h e (List.mem_cons_of_mem _ he))

/-- Concatenation of phase-monotone segments with a cross bound is
phase-monotone. -/
theorem pairwise_phase_append {l1 l2 : List VkCall}
    (h1 : (l1.map vkCallPhase).Pairwise (fun a b => a ≤ b))
    (h2 : (l2.map vkCallPhase).Pairwise (fun a b => a ≤ b))
    (hx : ∀ a ∈ l1, ∀ b ∈ l2, vkCallPhase a ≤ vkCallPhase b) :
    ((l1 ++ l2).map vkCallPhase).Pairwise (fun a b => a ≤ b) := by
  rw [List.map_append, List.pairwise_append]
  refine ⟨h1, h2, ?_⟩
  intro a ha b hb
  obtain ⟨x, hx1, rfl⟩ := List.mem_map.mp ha
  obtain ⟨y, hy1, rfl⟩ := List.mem_map.mp hb
  exact hx x hx1 y hy1

/-- Every event of the framebuffer-cleanup trace is a framebuffer
destruction for a slot that was non-null (the null check) and in
range. -/
theorem cleanupFramebuffers_mem (st : MossEngine) (e : VkCall)
    (he : e ∈ (moss__cleanupSwapchainFramebuffers st).2) :
    ∃ i, e = VkCall.destroyFramebuffer i ∧
      (st.presentFramebuffers.getD i none).isSome = true ∧
      i < st.swapchainImageCount := by
  simp only [moss__cleanupSwapchainFramebuffers] at he
  obtain ⟨i, hi, hie⟩ := List.mem_filterMap.mp he
  by_cases hc : (st.presentFramebuffers.getD i none).isSome = true
  · rw [if_pos hc] at hie
    exact ⟨i, (Option.some_inj.mp hie).symm, hc, List.mem_range.mp hi⟩
  · rw [if_neg hc] at hie
    exact Option.noConfusion hie

/-- Every event of the image-view-cleanup trace is a view destruction
for a slot that was non-null and in range. -/
theorem cleanupImageViews_mem (st : MossEngine) (e : VkCall)
    (he : e ∈ (moss__cleanupSwapchainImageViews st).2) :
    ∃ i, e = VkCall.destroyImageView i ∧
      (st.presentFramebufferImageViews.getD i none).isSome = true ∧
      i < st.swapchainImageCount := by
  simp only [moss__cleanupSwapchainImageViews] at he
  obtain ⟨i, hi, hie⟩ := List.mem_filterMap.mp he
  by_cases hc : (st.presentFramebufferImageViews.getD i none).isSome = true
  · rw [if_pos hc] at hie
    exact ⟨i, (Option.some_inj.mp hie).symm, hc, List.mem_range.mp hi⟩
  · rw [if_neg hc] at hie
    exact Option.noConfusion hie

/-- The handle-cleanup trace destroys the handle only when it was
non-null. -/
theorem cleanupHandle_mem (st : MossEngine) (e : VkCall)
    (he : e ∈ (moss__cleanupSwapchainHandle st).2) :
    e = VkCall.destroySwapchainKHR ∧ st.swapchain.isSome = true := by
  cases hs : st.swapchain with
  | none => simp [moss__cleanupSwapchainHandle, hs] at he
  | some x =>
      simp only [moss__cleanupSwapchainHandle, hs, List.mem_singleton] at he
      exact ⟨he, by simp [hs]⟩

/-- Every event of the depth-cleanup trace is a depth destruction whose
handle was non-null. -/
theorem cleanupDepth_mem (st : MossEngine) (e : VkCall)
    (he : e ∈ (moss__cleanupDepthResources st).2) :
    (e = VkCall.destroyDepthImageView ∧ st.depthImageView.isSome = true) ∨
    (e = VkCall.freeDepthImageMemory ∧ st.depthImageMemory.isSome = true) ∨
    (e = VkCall.destroyDepthImage ∧ st.depthImage.isSome = true) := by
  simp only [moss__cleanupDepthResources, List.mem_append] at he
  rcases he with (he | he) | he
  · left
    constructor
    · by_cases hc : st.depthImageView.isSome
      · simpa [hc] using he
      · simp [hc] at he
    · by_cases hc : st.depthImageView.isSome
      · exact hc
      · simp [hc] at he
  · right
    left
    constructor
    · by_cases hc : st.depthImageMemory.isSome
      · simpa [hc] using he
      · simp [hc] at he
    · by_cases hc : st.depthImageMemory.isSome
      · exact hc
      · simp [hc] at he
  · right
    right
    constructor
    · by_cases hc : st.depthImage.isSome
      · simpa [hc] using he
      · simp [hc] at he
    · by_cases hc : st.depthImage.isSome
      · exact hc
      · simp [hc] at he

/-- The full cleanup trace is the four phase traces in the code's order:
framebuffers, depth resources, image views, swapchain handle. -/
theorem cleanupSwapchain_trace (st : MossEngine) :
    (moss__cleanupSwapchain st).2 =
      (moss__cleanupSwapchainFramebuffers st).2 ++
      (moss__cleanupDepthResources (moss__cleanupSwapchainFramebuffers st).1).2 ++
      (moss__cleanupSwapchainImageViews
        (moss__cleanupDepthResources (moss__cleanupSwapchainFramebuffers st).1).1).2 ++
      (moss__cleanupSwapchainHandle
        (moss__cleanupSwapchainImageViews
          (moss__cleanupDepthResources (moss__cleanupSwapchainFramebuffers st).1).1).1).2 := rfl

/-- Every event of a full cleanup is a destruction of an object that was
non-null in the state the cleanup started from (each destruction is
guarded by a null check). -/
theorem cleanupSwapchain_mem (st : MossEngine) (e : VkCall)
    (he : e ∈ (moss__cleanupSwapchain st).2) :
    (∃ i, e = VkCall.destroyFramebuffer i ∧
      (st.presentFramebuffers.getD i none).isSome = true) ∨
    (e = VkCall.destroyDepthImageView ∧ st.depthImageView.isSome = true) ∨
    (e = VkCall.freeDepthImageMemory ∧ st.depthImageMemory.isSome = true) ∨
    (e = VkCall.destroyDepthImage ∧ st.depthImage.isSome = true) ∨
    (∃ i, e = VkCall.destroyImageView i ∧
      (st.presentFramebufferImageViews.getD i none).isSome = true) ∨
    (e = VkCall.destroySwapchainKHR ∧ st.swapchain.isSome = true) := by
  rw [cleanupSwapchain_trace] at he
  simp only [List.mem_append] at he
  rcases he with ((he | he) | he) | he
  · obtain ⟨i, h1, h2, _⟩ := cleanupFramebuffers_mem st e he
    exact Or.inl ⟨i, h1, h2⟩
  · rcases cleanupDepth_mem _ e he with h | h | h
    · exact Or.inr (Or.inl h)
    · exact Or.inr (Or.inr (Or.inl h))
    · exact Or.inr (Or.inr (Or.inr (Or.inl h)))
  · obtain ⟨i, h1, h2, _⟩ := cleanupImageViews_mem _ e he
    exact Or.inr (Or.inr (Or.inr (Or.inr (Or.inl ⟨i, h1, h2⟩))))
  · obtain ⟨h1, h2⟩ := cleanupHandle_mem _ e he
    exact Or.inr (Or.inr (Or.inr (Or.inr (Or.inr ⟨h1, h2⟩))))

/-- Cleanup events live in phases 1 through 4. -/
theorem cleanupSwapchain_phase_bounds (st : MossEngine) (e : VkCall)
    (he : e ∈ (moss__cleanupSwapchain st).2) :
    1 ≤ vkCallPhase e ∧ vkCallPhase e ≤ 4 := by
  rcases cleanupSwapchain_mem st e he with
    ⟨i, rfl, _⟩ | ⟨rfl, _⟩ | ⟨rfl, _⟩ | ⟨rfl, _⟩ | ⟨i, rfl, _⟩ | ⟨rfl, _⟩ <;>
    simp [vkCallPhase]

/-- The cleanup trace is phase-monotone: the code destroys framebuffers,
then depth resources, then image views, then the handle. -/
theorem cleanupSwapchain_sorted (st : MossEngine) :
    ((moss__cleanupSwapchain st).2.map vkCallPhase).Pairwise (fun a b => a ≤ b) := by
  rw [cleanupSwapchain_trace]
  have hf : ∀ e ∈ (moss__cleanupSwapchainFramebuffers st).2, vkCallPhase e = 1 := by
    intro e he
    obtain ⟨i, rfl, _⟩ := cleanupFramebuffers_mem st e he
    rfl
  have hd : ∀ e ∈ (moss__cleanupDepthResources
      (moss__cleanupSwapchainFramebuffers st).1).2, vkCallPhase e = 2 := by
    intro e he
    rcases cleanupDepth_mem _ e he with ⟨rfl, _⟩ | ⟨rfl, _⟩ | ⟨rfl, _⟩ <;> rfl
  have hv : ∀ e ∈ (moss__cleanupSwapchainImageViews
      (moss__cleanupDepthResources (moss__cleanupSwapchainFramebuffers st).1).1).2,
      vkCallPhase e = 3 := by
    intro e he
    obtain ⟨i, rfl, _⟩ := cleanupImageViews_mem _ e he
    rfl
  have hh : ∀ e ∈ (moss__cleanupSwapchainHandle
      (moss__cleanupSwapchainImageViews
        (moss__cleanupDepthResources (moss__cleanupSwapchainFramebuffers st).1).1).1).2,
      vkCallPhase e = 4 := by
    intro e he
    obtain ⟨rfl, _⟩ := cleanupHandle_mem _ e he
    rfl
  refine pairwise_phase_append (pairwise_phase_append (pairwise_phase_append
    (pairwise_phase_const hf) (pairwise_phase_const hd) ?_)
    (pairwise_phase_const hv) ?_) (pairwise_phase_const hh) ?_
  · intro a ha b hb
    rw [hf a ha, hd b hb]
    omega
  · intro a ha b hb
    rcases List.mem_append.mp ha with ha | ha
    · rw [hf a ha, hv b hb]
      omega
    · rw [hd a ha, hv b hb]
      omega
  · intro a ha b hb
    rcases List.mem_append.mp ha with ha | ha
    · rcases List.mem_append.mp ha with ha | ha
      · rw [hf a ha, hh b hb]
        omega
      · rw [hd a ha, hh b hb]
        omega
    · rw [hv a ha, hh b hb]
      omega

/-- The rebuild trace always starts with the device-idle wait, then the
full cleanup, then the swapchain-creation attempt carrying the queried
extent, then a prefix of the remaining creation phases in order (the
full suffix whenever the rebuild succeeds). -/
theorem recreate_trace_shape (env : VkEnv) (st : MossEngine) (extent : VkExtent2D) :
    ∃ post : List VkCall,
      (moss__recreateSwapchain env st extent).2.2
        = VkCall.deviceWaitIdle ::
            ((moss__cleanupSwapchain st).2 ++ (VkCall.createSwapchainKHR extent :: post)) ∧
      (post = [] ∨
       post = [VkCall.createSwapchainImageViews] ∨
       post = [VkCall.createSwapchainImageViews, VkCall.createDepthResources] ∨
       post = [VkCall.createSwapchainImageViews, VkCall.createDepthResources,
               VkCall.createPresentFramebuffers]) ∧
      ((moss__recreateSwapchain env st extent).1 = MossResult.success →
        post = [VkCall.createSwapchainImageViews, VkCall.createDepthResources,
                VkCall.createPresentFramebuffers]) := by
  by_cases h1 : env.createSwapchainOk = false
  · refine ⟨[], ?_, Or.inl rfl, ?_⟩
    · simp [moss__recreateSwapchain, moss__createSwapchain, h1]
    · intro hs
      simp [moss__recreateSwapchain, moss__createSwapchain, h1] at hs
  · by_cases h2 : env.driverImageCount > MAX_SWAPCHAIN_IMAGE_COUNT
    · refine ⟨[], ?_, Or.inl rfl, ?_⟩
      · simp [moss__recreateSwapchain, moss__createSwapchain, h1, h2]
      · intro hs
        simp [moss__recreateSwapchain, moss__createSwapchain, h1, h2] at hs
    · by_cases h3 : env.createImageViewsOk = false
      · refine ⟨[VkCall.createSwapchainImageViews], ?_, Or.inr (Or.inl rfl), ?_⟩
        · simp [moss__recreateSwapchain, moss__createSwapchain,
            moss__createSwapchainImageViews, h1, h2, h3]
        · intro hs
          simp [moss__recreateSwapchain, moss__createSwapchain,
            moss__createSwapchainImageViews, h1, h2, h3] at hs
      · by_cases h4 : env.createDepthOk = false
        · refine ⟨[VkCall.createSwapchainImageViews, VkCall.createDepthResources], ?_,
            Or.inr (Or.inr (Or.inl rfl)), ?_⟩
          · simp [moss__recreateSwapchain, moss__createSwapchain,
              moss__createSwapchainImageViews, moss__createDepthResources, h1, h2, h3, h4]
          · intro hs
            simp [moss__recreateSwapchain, moss__createSwapchain,
              moss__createSwapchainImageViews, moss__createDepthResources,
              h1, h2, h3, h4] at hs
        · refine ⟨[VkCall.createSwapchainImageViews, VkCall.createDepthResources,
            VkCall.createPresentFramebuffers], ?_, Or.inr (Or.inr (Or.inr rfl)),
            fun _ => rfl⟩
          by_cases h5 : env.createFramebuffersOk = false
          · simp [moss__recreateSwapchain, moss__createSwapchain,
              moss__createSwapchainImageViews, moss__createDepthResources,
              moss__createPresentFramebuffers, h1, h2, h3, h4, h5]
          · simp [moss__recreateSwapchain, moss__createSwapchain,
              moss__createSwapchainImageViews, moss__createDepthResources,
              moss__createPresentFramebuffers, h1, h2, h3, h4, h5]

/-- Prepending the wait and appending the creation suffix keeps the
rebuild trace phase-monotone. -/
theorem recreate_sorted_aux (st : MossEngine) (extent : VkExtent2D) (post : List VkCall)
    (hp : ((VkCall.createSwapchainKHR extent :: post).map vkCallPhase).Pairwise
      (fun a b => a ≤ b))
    (hp5 : ∀ b ∈ VkCall.createSwapchainKHR extent :: post, 5 ≤ vkCallPhase b) :
    ((VkCall.deviceWaitIdle :: ((moss__cleanupSwapchain st).2 ++
        (VkCall.createSwapchainKHR extent :: post))).map vkCallPhase).Pairwise
      (fun a b => a ≤ b) := by
  have h2 : (((moss__cleanupSwapchain st).2 ++
      (VkCall.createSwapchainKHR extent :: post)).map vkCallPhase).Pairwise
      (fun a b => a ≤ b) := by
    refine pairwise_phase_append (cleanupSwapchain_sorted st) hp ?_
    intro a ha b hb
    have h4 := (cleanupSwapchain_phase_bounds st a ha).2
    have h5 := hp5 b hb
    omega
  simp only [List.map_cons, List.pairwise_cons]
  refine ⟨fun y hy => ?_, h2⟩
  exact Nat.zero_le _
  
/-- Every event of a rebuild trace is the wait, a cleanup event, or one
of the four creation events (with the swapchain creation carrying the
queried extent). -/
theorem recreate_mem_cases (env : VkEnv) (st : MossEngine) (extent : VkExtent2D)
    (e : VkCall) (he : e ∈ (moss__recreateSwapchain env st extent).2.2) :
    e = VkCall.deviceWaitIdle ∨ e ∈ (moss__cleanupSwapchain st).2 ∨
    e = VkCall.createSwapchainKHR extent ∨
    e = VkCall.createSwapchainImageViews ∨ e = VkCall.createDepthResources ∨
    e = VkCall.createPresentFramebuffers := by
  obtain ⟨post, htr, hpost, _⟩ := recreate_trace_shape env st extent
  rw [htr] at he
  simp only [List.mem_cons, List.mem_append] at he
  rcases he with rfl | he | rfl | he
  · exact Or.inl rfl
  · exact Or.inr (Or.inl he)
  · exact Or.inr (Or.inr (Or.inl rfl))
  · rcases hpost with rfl | rfl | rfl | rfl
    · simp at he
    · simp at he
      exact Or.inr (Or.inr (Or.inr (Or.inl he)))
    · simp only [List.mem_cons, List.not_mem_nil, or_false] at he
      rcases he with rfl | rfl
      · exact Or.inr (Or.inr (Or.inr (Or.inl rfl)))
      · exact Or.inr (Or.inr (Or.inr (Or.inr (Or.inl rfl))))
    · simp only [List.mem_cons, List.not_mem_nil, or_false] at he
      rcases he with rfl | rfl | rfl
      · exact Or.inr (Or.inr (Or.inr (Or.inl rfl)))
      · exact Or.inr (Or.inr (Or.inr (Or.inr (Or.inl rfl))))
      · exact Or.inr (Or.inr (Or.inr (Or.inr (Or.inr rfl))))

/-- C5 (amended): every swapchain rebuild first waits for device idle,
then tears down framebuffers, then depth resources, then image views,
then the swapchain handle — in that order, each destruction guarded by a
null check on the pre-rebuild state — and then recreates the swapchain,
then image views, then depth resources, then framebuffers, using the
newly queried extent for the recreated swapchain; on a successful
rebuild all four creation phases are present.  Phase-monotonicity of
the trace under `vkCallPhase` expresses exactly this order. -/
theorem c5_rebuild_order (env : VkEnv) (st : MossEngine) (extent : VkExtent2D) :
    ((moss__recreateSwapchain env st extent).2.2).head? = some VkCall.deviceWaitIdle ∧
    (((moss__recreateSwapchain env st extent).2.2).map vkCallPhase).Pairwise
      (fun a b => a ≤ b) ∧
    (∀ i, VkCall.destroyFramebuffer i ∈ (moss__recreateSwapchain env st extent).2.2 →
      (st.presentFramebuffers.getD i none).isSome = true) ∧
    (∀ i, VkCall.destroyImageView i ∈ (moss__recreateSwapchain env st extent).2.2 →
      (st.presentFramebufferImageViews.getD i none).isSome = true) ∧
    (VkCall.destroySwapchainKHR ∈ (moss__recreateSwapchain env st extent).2.2 →
      st.swapchain.isSome = true) ∧
    (VkCall.destroyDepthImageView ∈ (moss__recreateSwapchain env st extent).2.2 →
      st.depthImageView.isSome = true) ∧
    (VkCall.freeDepthImageMemory ∈ (moss__recreateSwapchain env st extent).2.2 →
      st.depthImageMemory.isSome = true) ∧
    (VkCall.destroyDepthImage ∈ (moss__recreateSwapchain env st extent).2.2 →
      st.depthImage.isSome = true) ∧
    (∀ e2, VkCall.createSwapchainKHR e2 ∈ (moss__recreateSwapchain env st extent).2.2 →
      e2 = extent) ∧
    ((moss__recreateSwapchain env st extent).1 = MossResult.success →
      VkCall.createSwapchainKHR extent ∈ (moss__recreateSwapchain env st extent).2.2 ∧
      VkCall.createSwapchainImageViews ∈ (moss__recreateSwapchain env st extent).2.2 ∧
      VkCall.createDepthResources ∈ (moss__recreateSwapchain env st extent).2.2 ∧
      VkCall.createPresentFramebuffers ∈ (moss__recreateSwapchain env st extent).2.2) := by
  obtain ⟨post, htr, hpost, hsucc⟩ := recreate_trace_shape env st extent
  refine ⟨?_, ?_, ?_, ?_, ?_, ?_, ?_, ?_, ?_, ?_⟩
  · rw [htr]
    rfl
  · rw [htr]
    rcases hpost with rfl | rfl | rfl | rfl
    · exact recreate_sorted_aux st extent _
        (by simp only [List.map_cons, List.map_nil, vkCallPhase]; decide)
        (by intro b hb; simp only [List.mem_cons, List.not_mem_nil, or_false] at hb
            subst hb; simp [vkCallPhase])
    · exact recreate_sorted_aux st extent _
        (by simp only [List.map_cons, List.map_nil, vkCallPhase]; decide)
        (by intro b hb; simp only [List.mem_cons, List.not_mem_nil, or_false] at hb
            rcases hb with rfl | rfl <;> simp [vkCallPhase])
    · exact recreate_sorted_aux st extent _
        (by simp only [List.map_cons, List.map_nil, vkCallPhase]; decide)
        (by intro b hb; simp only [List.mem_cons, List.not_mem_nil, or_false] at hb
            rcases hb with rfl | rfl | rfl <;> simp [vkCallPhase])
    · exact recreate_sorted_aux st extent _
        (by simp only [List.map_cons, List.map_nil, vkCallPhase]; decide)
        (by intro b hb; simp only [List.mem_cons, List.not_mem_nil, or_false] at hb
            rcases hb with rfl | rfl | rfl | rfl <;> simp [vkCallPhase])
  · intro i hmem
    rcases recreate_mem_cases env st extent _ hmem with h | h | h | h | h | h
    · simp at h
    · rcases cleanupSwapchain_mem st _ h with
        ⟨j, hj, hg⟩ | ⟨hj, _⟩ | ⟨hj, _⟩ | ⟨hj, _⟩ | ⟨j, hj, _⟩ | ⟨hj, _⟩
      · cases hj
        exact hg
      · simp at hj
      · simp at hj
      · simp at hj
      · simp at hj
      · simp at hj
    · simp at h
    · simp at h
    · simp at h
    · simp at h
  · intro i hmem
    rcases recreate_mem_cases env st extent _ hmem with h | h | h | h | h | h
    · simp at h
    · rcases cleanupSwapchain_mem st _ h with
        ⟨j, hj, _⟩ | ⟨hj, _⟩ | ⟨hj, _⟩ | ⟨hj, _⟩ | ⟨j, hj, hg⟩ | ⟨hj, _⟩
      · simp at hj
      · simp at hj
      · simp at hj
      · simp at hj
      · cases hj
        exact hg
      · simp at hj
    · simp at h
    · simp at h
    · simp at h
    · simp at h
  · intro hmem
    rcases recreate_mem_cases env st extent _ hmem with h | h | h | h | h | h
    · simp at h
    · rcases cleanupSwapchain_mem st _ h with
        ⟨j, hj, _⟩ | ⟨hj, _⟩ | ⟨hj, _⟩ | ⟨hj, _⟩ | ⟨j, hj, _⟩ | ⟨_, hg⟩
      · simp at hj
      · simp at hj
      · simp at hj
      · simp at hj
      · simp at hj
      · exact hg
    · simp at h
    · simp at h
    · simp at h
    · simp at h
  · intro hmem
    rcases recreate_mem_cases env st extent _ hmem with h | h | h | h | h | h
    · simp at h
    · rcases cleanupSwapchain_mem st _ h with
        ⟨j, hj, _⟩ | ⟨_, hg⟩ | ⟨hj, _⟩ | ⟨hj, _⟩ | ⟨j, hj, _⟩ | ⟨hj, _⟩
      · simp at hj
      · exact hg
      · simp at hj
      · simp at hj
      · simp at hj
      · simp at hj
    · simp at h
    · simp at h
    · simp at h
    · simp at h
  · intro hmem
    rcases recreate_mem_cases env st extent _ hmem with h | h | h | h | h | h
    · simp at h
    · rcases cleanupSwapchain_mem st _ h with
        ⟨j, hj, _⟩ | ⟨hj, _⟩ | ⟨_, hg⟩ | ⟨hj, _⟩ | ⟨j, hj, _⟩ | ⟨hj, _⟩
      · simp at hj
      · simp at hj
      · exact hg
      · simp at hj
      · simp at hj
      · simp at hj
    · simp at h
    · simp at h
    · simp at h
    · simp at h
  · intro hmem
    rcases recreate_mem_cases env st extent _ hmem with h | h | h | h | h | h
    · simp at h
    · rcases cleanupSwapchain_mem st _ h with
        ⟨j, hj, _⟩ | ⟨hj, _⟩ | ⟨hj, _⟩ | ⟨_, hg⟩ | ⟨j, hj, _⟩ | ⟨hj, _⟩
      · simp at hj
      · simp at hj
      · simp at hj
      · exact hg
      · simp at hj
      · simp at hj
    · simp at h
    · simp at h
    · simp at h
    · simp at h
  · intro e2 hmem
    rcases recreate_mem_cases env st extent _ hmem with h | h | h | h | h | h
    · simp at h
    · rcases cleanupSwapchain_mem st _ h with
        ⟨j, hj, _⟩ | ⟨hj, _⟩ | ⟨hj, _⟩ | ⟨hj, _⟩ | ⟨j, hj, _⟩ | ⟨hj, _⟩ <;> simp at hj
    · exact (VkCall.createSwapchainKHR.injEq _ _).mp h
    · simp at h
    · simp at h
    · simp at h
  · intro hs
    rw [hsucc hs] at htr
    rw [htr]
    refine ⟨?_, ?_, ?_, ?_⟩ <;> simp

/-- Sample engine state with one swapchain image and all handles live,
used by concrete witnesses and counterexamples. -/
def sampleEngine : MossEngine :=
  { swapchain := some 1
    swapchainImages := [0]
    swapchainImageCount := 1
    swapchainImageFormat := 1
    swapchainExtent := (640, 480)
    presentFramebufferImageViews := [some 1, none, none, none]
    presentFramebuffers := [some 1, none, none, none]
    depthImage := some 1
    depthImageView := some 1
    depthImageMemory := some 1
    currentFrame := 0
    currentImageIndex := 0 }

/-- Sample driver environment in which every creation succeeds. -/
def sampleVkEnv : VkEnv :=
  { createSwapchainOk := true
    driverImageCount := 1
    surfaceFormat := 1
    createImageViewsOk := true
    createDepthOk := true
    createFramebuffersOk := true }

/-- C5 counterexample: the claim orders the teardown as framebuffers,
then image views, then the swapchain handle, then depth resources.  The
code (`moss__cleanupSwapchain`) destroys depth resources immediately
after the framebuffers, before the image views and the handle: on a
fully live one-image state the rebuild trace destroys depth right after
the framebuffer, so the trace is not monotone in the claimed phase
order. -/
theorem c5_counterexample :
    (moss__recreateSwapchain sampleVkEnv sampleEngine (800, 600)).2.2
      = [VkCall.deviceWaitIdle, VkCall.destroyFramebuffer 0,
         VkCall.destroyDepthImageView, VkCall.freeDepthImageMemory,
         VkCall.destroyDepthImage, VkCall.destroyImageView 0,
         VkCall.destroySwapchainKHR, VkCall.createSwapchainKHR (800, 600),
         VkCall.createSwapchainImageViews, VkCall.createDepthResources,
         VkCall.createPresentFramebuffers] ∧
    ¬ (((moss__recreateSwapchain sampleVkEnv sampleEngine (800, 600)).2.2).map
        vkCallPhaseClaimed).Pairwise (fun a b => a ≤ b) := by
  constructor
  · decide
  · decide

/-- Witness for C5 (amended): the concrete fully live state. -/
theorem c5_rebuild_order_witness :
    ((moss__recreateSwapchain sampleVkEnv sampleEngine (800, 600)).2.2).head?
      = some VkCall.deviceWaitIdle ∧
    (((moss__recreateSwapchain sampleVkEnv sampleEngine (800, 600)).2.2).map
      vkCallPhase).Pairwise (fun a b => a ≤ b) :=
  ⟨(c5_rebuild_order sampleVkEnv sampleEngine (800, 600)).1,
   (c5_rebuild_order sampleVkEnv sampleEngine (800, 600)).2.1⟩

/-- C9 counterexample: on a driver-reported image count of 5 (bound 4),
creation does fail with an error and never fetches the image array, but
the count was stored into `swapchainImageCount` BEFORE the bound check,
so after the failed call the stored count field exceeds the bound —
contradicting the claim that the stored image count never exceeds it. -/
theorem c9_counterexample :
    (moss__createSwapchain { sampleVkEnv with driverImageCount := 5 }
        sampleEngine (800, 600)).1 = MossResult.error ∧
    (moss__createSwapchain { sampleVkEnv with driverImageCount := 5 }
        sampleEngine (800, 600)).2.1.swapchainImageCount = 5 ∧
    MAX_SWAPCHAIN_IMAGE_COUNT < 5 := by
  decide

/-- C9 (amended): when the driver-reported image count exceeds
`MAX_SWAPCHAIN_IMAGE_COUNT`, swapchain creation (and hence any rebuild)
reports an error and fails rather than truncating — the image array is
never fetched (it is left unchanged) — although the count field itself
retains the driver-reported value on this failing path; after every
SUCCESSFUL creation the stored count and image list are within the
bound. -/
theorem c9_image_count_bound (env : VkEnv) (st : MossEngine) (extent : VkExtent2D)
    (hgt : env.driverImageCount > MAX_SWAPCHAIN_IMAGE_COUNT) :
    (moss__createSwapchain env st extent).1 = MossResult.error ∧
    (moss__createSwapchain env st extent).2.1.swapchainImages = st.swapchainImages ∧
    (moss__recreateSwapchain env st extent).1 = MossResult.error ∧
    (∀ env2 : VkEnv, ∀ st2 : MossEngine, ∀ extent2 : VkExtent2D,
      (moss__createSwapchain env2 st2 extent2).1 = MossResult.success →
      (moss__createSwapchain env2 st2 extent2).2.1.swapchainImageCount
          ≤ MAX_SWAPCHAIN_IMAGE_COUNT ∧
      (moss__createSwapchain env2 st2 extent2).2.1.swapchainImages.length
          ≤ MAX_SWAPCHAIN_IMAGE_COUNT) := by
  have herr : ∀ st3 : MossEngine, (moss__createSwapchain env st3 extent).1
      = MossResult.error := by
    intro st3
    by_cases h1 : env.createSwapchainOk = false
    · simp [moss__createSwapchain, h1]
    · simp [moss__createSwapchain, h1, hgt]
  refine ⟨herr st, ?_, ?_, ?_⟩
  · by_cases h1 : env.createSwapchainOk = false
    · simp [moss__createSwapchain, h1]
    · simp [moss__createSwapchain, h1, hgt]
  · have h := herr (moss__cleanupSwapchain st).1
    simp [moss__recreateSwapchain, h]
  · intro env2 st2 extent2 hs
    by_cases h1 : env2.createSwapchainOk = false
    · simp [moss__createSwapchain, h1] at hs
    · by_cases h2 : env2.driverImageCount > MAX_SWAPCHAIN_IMAGE_COUNT
      · simp [moss__createSwapchain, h1, h2] at hs
      · constructor
        · simp [moss__createSwapchain, h1, h2]
          omega
        · simp [moss__createSwapchain, h1, h2]
          omega

/-- Witness for C9 (amended): driver count 5 on the live sample
state. -/
theorem c9_image_count_bound_witness :
    (moss__createSwapchain { sampleVkEnv with driverImageCount := 5 }
        sampleEngine (800, 600)).1 = MossResult.error ∧
    (moss__createSwapchain { sampleVkEnv with driverImageCount := 5 }
        sampleEngine (800, 600)).2.1.swapchainImages = sampleEngine.swapchainImages :=
  ⟨(c9_image_count_bound { sampleVkEnv with driverImageCount := 5 }
      sampleEngine (800, 600) (by decide)).1,
   (c9_image_count_bound { sampleVkEnv with driverImageCount := 5 }
      sampleEngine (800, 600) (by decide)).2.1⟩

/-- Whether a frame trace contains a swapchain rebuild. -/
def containsRecreate (l : List FrameCall) : Bool :=
  l.any (fun c => match c with
    | FrameCall.recreateSwapchain _ => true
    | _ => false)

/-- Sample frame environment: suboptimal acquire, everything else fine,
present reports plain success. -/
def sampleFrameEnv : FrameEnv :=
  { acquireResult := VkResult.suboptimalKHR
    acquiredImageIndex := 0
    framebufferExtent := (640, 480)
    beginCommandBufferOk := true
    endCommandBufferOk := true
    queueSubmitOk := true
    presentResult := VkResult.success
    vk := sampleVkEnv }

/-- C6 counterexample: after a success-but-suboptimal acquire the frame
is recorded normally, but the engine does NOT remember that a rebuild is
owed — the post-`beginFrame` state is bit-identical to the state after a
plain-success acquire — and when the subsequent present reports plain
success, `mossEndFrame` performs no rebuild at all, contradicting the
claim that a rebuild occurs after present. -/
theorem c6_counterexample :
    (mossBeginFrame sampleFrameEnv sampleEngine).1 = MossResult.success ∧
    (mossBeginFrame sampleFrameEnv sampleEngine).2.1
      = (mossBeginFrame { sampleFrameEnv with acquireResult := VkResult.success }
          sampleEngine).2.1 ∧
    containsRecreate
      (mossEndFrame sampleFrameEnv (mossBeginFrame sampleFrameEnv sampleEngine).2.1).2.2
      = false ∧
    (mossEndFrame sampleFrameEnv (mossBeginFrame sampleFrameEnv sampleEngine).2.1).1
      = MossResult.success := by
  decide

/-- C6 (amended): on a success-but-suboptimal acquire, `mossBeginFrame`
proceeds to record the frame normally (success, same result/state/trace
as a plain-success acquire); no pending-rebuild information is stored,
and a rebuild after present happens exactly when the present call itself
reports out-of-date or suboptimal — never when present reports plain
success. -/
theorem c6_suboptimal_no_deferred_rebuild (env env2 : FrameEnv) (st st2 : MossEngine)
    (hA : env.acquireResult = VkResult.suboptimalKHR)
    (hB : env.beginCommandBufferOk = true)
    (hP : env2.presentResult = VkResult.success) :
    (mossBeginFrame env st).1 = MossResult.success ∧
    mossBeginFrame env st
      = mossBeginFrame { env with acquireResult := VkResult.success } st ∧
    containsRecreate (mossEndFrame env2 st2).2.2 = false ∧
    (∀ env3 : FrameEnv, ∀ st3 : MossEngine,
      (env3.presentResult = VkResult.errorOutOfDateKHR ∨
       env3.presentResult = VkResult.suboptimalKHR) →
      env3.endCommandBufferOk = true → env3.queueSubmitOk = true →
      containsRecreate (mossEndFrame env3 st3).2.2 = true) := by
  refine ⟨?_, ?_, ?_, ?_⟩
  · simp [mossBeginFrame, hA, hB]
  · simp [mossBeginFrame, hA, hB]
  · by_cases h1 : env2.endCommandBufferOk = false
    · simp [mossEndFrame, h1, containsRecreate]
    · by_cases h2 : env2.queueSubmitOk = false
      · simp [mossEndFrame, h1, h2, containsRecreate]
      · simp [mossEndFrame, h1, h2, hP, containsRecreate]
  · intro env3 st3 hpr h3a h3b
    have h3a' : (env3.endCommandBufferOk = false) = False := by simp [h3a]
    have h3b' : (env3.queueSubmitOk = false) = False := by simp [h3b]
    rcases hpr with hpr | hpr
    · by_cases hr : (moss__recreateSwapchain env3.vk st3 env3.framebufferExtent).1
          = MossResult.error
      · simp [mossEndFrame, h3a', h3b', hpr, hr, containsRecreate]
      · simp [mossEndFrame, h3a', h3b', hpr, hr, containsRecreate]
    · by_cases hr : (moss__recreateSwapchain env3.vk st3 env3.framebufferExtent).1
          = MossResult.error
      · simp [mossEndFrame, h3a', h3b', hpr, hr, containsRecreate]
      · simp [mossEndFrame, h3a', h3b', hpr, hr, containsRecreate]

/-- Witness for C6 (amended): the sample environment, plus the
out-of-date present case on the sample engine. -/
theorem c6_suboptimal_no_deferred_rebuild_witness :
    (mossBeginFrame sampleFrameEnv sampleEngine).1 = MossResult.success ∧
    containsRecreate (mossEndFrame sampleFrameEnv sampleEngine).2.2 = false ∧
    containsRecreate
      (mossEndFrame { sampleFrameEnv with presentResult := VkResult.errorOutOfDateKHR }
        sampleEngine).2.2 = true :=
  ⟨(c6_suboptimal_no_deferred_rebuild sampleFrameEnv sampleFrameEnv sampleEngine
      sampleEngine (by decide) (by decide) (by decide)).1,
   (c6_suboptimal_no_deferred_rebuild sampleFrameEnv sampleFrameEnv sampleEngine
      sampleEngine (by decide) (by decide) (by decide)).2.2.1,
   (c6_suboptimal_no_deferred_rebuild sampleFrameEnv sampleFrameEnv sampleEngine
      sampleEngine (by decide) (by decide) (by decide)).2.2.2
     { sampleFrameEnv with presentResult := VkResult.errorOutOfDateKHR }
     sampleEngine (Or.inl rfl) (by decide) (by decide)⟩

/-- Destroying the swapchain handle does not touch the frame index. -/
theorem cleanupSwapchainHandle_currentFrame (st : MossEngine) :
    (moss__cleanupSwapchainHandle st).1.currentFrame = st.currentFrame := by
  cases hs : st.swapchain <;> simp [moss__cleanupSwapchainHandle, hs]

/-- Swapchain cleanup does not touch the frame index. -/
theorem cleanupSwapchain_currentFrame (st : MossEngine) :
    (moss__cleanupSwapchain st).1.currentFrame = st.currentFrame := by
  show (moss__cleanupSwapchainHandle _).1.currentFrame = st.currentFrame
  rw [cleanupSwapchainHandle_currentFrame]
  rfl

/-- Swapchain creation does not touch the frame index. -/
theorem createSwapchain_currentFrame (env : VkEnv) (st : MossEngine)
    (extent : VkExtent2D) :
    (moss__createSwapchain env st extent).2.1.currentFrame = st.currentFrame := by
  by_cases h1 : env.createSwapchainOk = false
  · simp [moss__createSwapchain, h1]
  · by_cases h2 : env.driverImageCount > MAX_SWAPCHAIN_IMAGE_COUNT <;>
      simp [moss__createSwapchain, h1, h2]

/-- Image-view creation does not touch the frame index. -/
theorem createImageViews_currentFrame (env : VkEnv) (st : MossEngine) :
    (moss__createSwapchainImageViews env st).2.1.currentFrame = st.currentFrame := by
  by_cases h : env.createImageViewsOk <;> simp [moss__createSwapchainImageViews, h]

/-- Depth-resource creation does not touch the frame index. -/
theorem createDepth_currentFrame (env : VkEnv) (st : MossEngine) :
    (moss__createDepthResources env st).2.1.currentFrame = st.currentFrame := by
  by_cases h : env.createDepthOk <;> simp [moss__createDepthResources, h]

/-- Framebuffer creation does not touch the frame index. -/
theorem createFramebuffers_currentFrame (env : VkEnv) (st : MossEngine) :
    (moss__createPresentFramebuffers env st).2.1.currentFrame = st.currentFrame := by
  by_cases h : env.createFramebuffersOk <;> simp [moss__createPresentFramebuffers, h]

/-- A swapchain rebuild never touches the frame index. -/
theorem recreate_currentFrame (env : VkEnv) (st : MossEngine) (extent : VkExtent2D) :
    (moss__recreateSwapchain env st extent).2.1.currentFrame = st.currentFrame := by
  simp only [moss__recreateSwapchain]
  by_cases h1 : (moss__createSwapchain env (moss__cleanupSwapchain st).1 extent).1
      = MossResult.error
  · rw [if_pos h1]
    show (moss__createSwapchain _ _ _).2.1.currentFrame = _
    rw [createSwapchain_currentFrame, cleanupSwapchain_currentFrame]
  · rw [if_neg h1]
    by_cases h2 : (moss__createSwapchainImageViews env
        (moss__createSwapchain env (moss__cleanupSwapchain st).1 extent).2.1).1
        = MossResult.error
    · rw [if_pos h2]
      show (moss__createSwapchainImageViews _ _).2.1.currentFrame = _
      rw [createImageViews_currentFrame, createSwapchain_currentFrame,
        cleanupSwapchain_currentFrame]
    · rw [if_neg h2]
      by_cases h3 : (moss__createDepthResources env
          (moss__createSwapchainImageViews env
            (moss__createSwapchain env (moss__cleanupSwapchain st).1 extent).2.1).2.1).1
          = MossResult.error
      · rw [if_pos h3]
        show (moss__createDepthResources _ _).2.1.currentFrame = _
        rw [createDepth_currentFrame, createImageViews_currentFrame,
          createSwapchain_currentFrame, cleanupSwapchain_currentFrame]
      · rw [if_neg h3]
        by_cases h4 : (moss__createPresentFramebuffers env
            (moss__createDepthResources env
              (moss__createSwapchainImageViews env
                (moss__createSwapchain env
                  (moss__cleanupSwapchain st).1 extent).2.1).2.1).2.1).1
            = MossResult.error
        · rw [if_pos h4]
          show (moss__createPresentFramebuffers _ _).2.1.currentFrame = _
          rw [createFramebuffers_currentFrame, createDepth_currentFrame,
            createImageViews_currentFrame, createSwapchain_currentFrame,
            cleanupSwapchain_currentFrame]
        · rw [if_neg h4]
          show (moss__createPresentFramebuffers _ _).2.1.currentFrame = _
          rw [createFramebuffers_currentFrame, createDepth_currentFrame,
            createImageViews_currentFrame, createSwapchain_currentFrame,
            cleanupSwapchain_currentFrame]

/-- C7: every `mossEndFrame` that returns success advances
`currentFrame` to `(previous + 1) mod 2` (so the index always stays
below `MAX_FRAMES_IN_FLIGHT = 2`), and an `mossEndFrame` that fails —
from command-buffer ending, queue submission, or a fatal (other-error)
present — returns an error and leaves the whole engine state, in
particular `currentFrame`, unchanged. -/
theorem c7_frame_index_advance (env1 env2 env3 env4 : FrameEnv)
    (st1 st2 st3 st4 : MossEngine)
    (h1 : (mossEndFrame env1 st1).1 = MossResult.success)
    (h2 : env2.endCommandBufferOk = false)
    (h3 : env3.endCommandBufferOk = true) (h3b : env3.queueSubmitOk = false)
    (h4 : env4.endCommandBufferOk = true) (h4b : env4.queueSubmitOk = true)
    (h4c : env4.presentResult = VkResult.otherError) :
    (mossEndFrame env1 st1).2.1.currentFrame = (st1.currentFrame + 1) % 2 ∧
    (mossEndFrame env1 st1).2.1.currentFrame < 2 ∧
    ((mossEndFrame env2 st2).1 = MossResult.error ∧ (mossEndFrame env2 st2).2.1 = st2) ∧
    ((mossEndFrame env3 st3).1 = MossResult.error ∧ (mossEndFrame env3 st3).2.1 = st3) ∧
    ((mossEndFrame env4 st4).1 = MossResult.error ∧ (mossEndFrame env4 st4).2.1 = st4) := by
  have hadv : (mossEndFrame env1 st1).2.1.currentFrame = (st1.currentFrame + 1) % 2 := by
    by_cases ha : env1.endCommandBufferOk = false
    · simp [mossEndFrame, ha] at h1
    · by_cases hb : env1.queueSubmitOk = false
      · simp [mossEndFrame, ha, hb] at h1
      · cases hp : env1.presentResult with
        | success =>
            simp [mossEndFrame, ha, hb, hp, MAX_FRAMES_IN_FLIGHT]
        | otherError =>
            simp [mossEndFrame, ha, hb, hp] at h1
        | suboptimalKHR =>
            by_cases hr : (moss__recreateSwapchain env1.vk st1
                env1.framebufferExtent).1 = MossResult.error
            · simp [mossEndFrame, ha, hb, hp, hr] at h1
            · simp [mossEndFrame, ha, hb, hp, hr, MAX_FRAMES_IN_FLIGHT,
                recreate_currentFrame]
        | errorOutOfDateKHR =>
            by_cases hr : (moss__recreateSwapchain env1.vk st1
                env1.framebufferExtent).1 = MossResult.error
            · simp [mossEndFrame, ha, hb, hp, hr] at h1
            · simp [mossEndFrame, ha, hb, hp, hr, MAX_FRAMES_IN_FLIGHT,
                recreate_currentFrame]
  refine ⟨hadv, ?_, ?_, ?_, ?_⟩
  · rw [hadv]
    omega
  · constructor <;> simp [mossEndFrame, h2]
  · have h3' : (env3.endCommandBufferOk = false) = False := by simp [h3]
    constructor <;> simp [mossEndFrame, h3', h3b]
  · have h4' : (env4.endCommandBufferOk = false) = False := by simp [h4]
    have h4b' : (env4.queueSubmitOk = false) = False := by simp [h4b]
    constructor <;> simp [mossEndFrame, h4', h4b', h4c]

/-- Witness for C7: a clean success path and each failure kind on the
sample engine. -/
theorem c7_frame_index_advance_witness :
    (mossEndFrame sampleFrameEnv sampleEngine).2.1.currentFrame
      = (sampleEngine.currentFrame + 1) % 2 ∧
    (mossEndFrame { sampleFrameEnv with endCommandBufferOk := false } sampleEngine).2.1
      = sampleEngine :=
  ⟨(c7_frame_index_advance sampleFrameEnv
      { sampleFrameEnv with endCommandBufferOk := false }
      { sampleFrameEnv with queueSubmitOk := false }
      { sampleFrameEnv with presentResult := VkResult.otherError }
      sampleEngine sampleEngine sampleEngine sampleEngine
      (by decide) (by decide) (by decide) (by decide) (by decide) (by decide)
      (by decide)).1,
   (c7_frame_index_advance sampleFrameEnv
      { sampleFrameEnv with endCommandBufferOk := false }
      { sampleFrameEnv with queueSubmitOk := false }
      { sampleFrameEnv with presentResult := VkResult.otherError }
      sampleEngine sampleEngine sampleEngine sampleEngine
      (by decide) (by decide) (by decide) (by decide) (by decide) (by decide)
      (by decide)).2.2.1.2⟩
